import Mathlib

/-!
Shallow embedding of the INDI client library (`indiclient.go`) and proofs about
its catalog operations.

Modelling conventions:

* Go `map[string]T` is modelled as an association list `SMap T` with Go's
  extensional behaviour: `SMap.find` returns the first binding, `SMap.insert`
  overwrites an existing binding in place (or appends a fresh one), and
  `SMap.erase` removes the key.  The one place where Go's (randomized) map
  iteration order is observable — the "purge all" branch of `delProperty`,
  which deletes the first iterated key and then returns — is modelled as
  deleting the head binding of the list; the facts proved about it (exactly
  one device removed) do not depend on which key iteration yields first.
* The string-based protocol enums (`PropertyState`, `SwitchState`,
  `PropertyPermission`) are kept as `String`, as in the source, so that the
  Go zero value `""` and arbitrary server-sent strings are representable.
* Time-valued fields (`LastUpdated`, message timestamps) are wall-clock
  (`time.Now()`) and are omitted from the model; no claim concerns them.
  Message logs keep only the message strings.
* The filesystem (`afero.Fs`) is modelled as a map from file name to byte
  contents (`Fs`); opening with `O_CREATE|O_WRONLY|O_TRUNC` and writing is
  replacing the entry.  Bytes are `Nat` (values below 256).
* The record types (`Device`, the property/value records, and the wire-message
  records) are declared in a repository file that is not part of `src/`;
  they are modelled from the spec (§3 DATA MODEL, §4.1 Wire codec) and from
  their uses in `indiclient.go`.
* `strings.TrimSpace` is modelled by `trimSpace` (the ASCII whitespace
  characters; no claim depends on exotic Unicode spaces).
* Concurrency (locks, goroutines, channels) is out of the shallow embedding.
  The catalog mutators are pure `Catalog → Catalog` functions, exactly the
  bodies that run under the writer lock; the busy-wait loop of the consumer
  set operations is modelled as a scan over the finite list of property
  states it observes (`awaitPropertyResolution`).
-/

namespace IndiClient

/-! ## Go string-keyed maps -/

/-- Association-list model of a Go `map[string]α`. -/
abbrev SMap (α : Type) : Type := List (String × α)

namespace SMap

/-- Lookup: first binding of the key. -/
def find {α : Type} : SMap α → String → Option α
  | [], _ => none
  | (k', v) :: rest, k => if k' = k then some v else find rest k

/-- Go map assignment `m[k] = v`: overwrite the first binding in place, or
append a fresh binding. -/
def insert {α : Type} : SMap α → String → α → SMap α
  | [], k, v => [(k, v)]
  | (k', v') :: rest, k, v =>
    if k' = k then (k, v) :: rest else (k', v') :: insert rest k v

/-- Go `delete(m, k)`: remove the key's bindings. -/
def erase {α : Type} (m : SMap α) (k : String) : SMap α :=
  m.filter (fun p => !(p.1 == k))

/-- The key list (Go `for key := range m` over a map built by `insert`). -/
def keys {α : Type} (m : SMap α) : List String :=
  m.map Prod.fst

theorem find_insert {α : Type} (m : SMap α) (k : String) (v : α) (k' : String) :
    find (insert m k v) k' = if k = k' then some v else find m k' := by
  induction m with
  | nil => simp [insert, find]
  | cons hd tl ih =>
    obtain ⟨k₀, v₀⟩ := hd
    by_cases h₀ : k₀ = k
    · subst h₀
      by_cases h₁ : k₀ = k'
      · subst h₁; simp [insert, find]
      · simp [insert, find, h₁]
    · by_cases h₁ : k₀ = k'
      · subst h₁
        have hk : k ≠ k₀ := fun h => h₀ h.symm
        simp [insert, find, h₀, hk]
      · simp [insert, find, h₀, h₁, ih]

theorem find_erase {α : Type} (m : SMap α) (k k' : String) :
    find (erase m k) k' = if k = k' then none else find m k' := by
  induction m with
  | nil => simp [erase, find]
  | cons hd tl ih =>
    obtain ⟨k₀, v₀⟩ := hd
    simp only [erase] at ih ⊢
    by_cases h₀ : k₀ = k
    · subst h₀
      by_cases h₁ : k₀ = k'
      · subst h₁; simpa [List.filter_cons] using ih
      · simp [List.filter_cons, find, ih, h₁]
    · by_cases h₁ : k₀ = k'
      · subst h₁
        have hk : k ≠ k₀ := fun h => h₀ h.symm
        simp [List.filter_cons, find, h₀, hk]
      · simp [List.filter_cons, find, h₀, h₁, ih]

theorem find_insert_self {α : Type} (m : SMap α) (k : String) (v : α) :
    find (insert m k v) k = some v := by
  simp [find_insert]

theorem find_insert_ne {α : Type} (m : SMap α) (k : String) (v : α) (k' : String)
    (h : k ≠ k') : find (insert m k v) k' = find m k' := by
  simp [find_insert, h]

/-- Overwriting an existing key does not change the key list. -/
theorem keys_insert_of_find_isSome {α : Type} (m : SMap α) (k : String) (v : α)
    (h : (find m k).isSome) : keys (insert m k v) = keys m := by
  induction m with
  | nil => simp [find] at h
  | cons hd tl ih =>
    obtain ⟨k₀, v₀⟩ := hd
    by_cases h₀ : k₀ = k
    · subst h₀; simp [insert, keys]
    · have h' : (find tl k).isSome := by simpa [find, h₀] using h
      have hk := ih h'
      simp only [keys] at hk
      simp [insert, keys, h₀, hk]

end SMap

/-! ## Protocol enumerations (string-typed, as in the source) -/

/-- Source `PropertyState` represents the current state of a property. -/
abbrev PropertyState := String

def PropertyStateIdle : PropertyState := "Idle"
def PropertyStateOk : PropertyState := "Ok"
def PropertyStateBusy : PropertyState := "Busy"
def PropertyStateAlert : PropertyState := "Alert"

/-- Source `SwitchState` represents the current state of a switch value. -/
abbrev SwitchState := String

def SwitchStateOff : SwitchState := "Off"
def SwitchStateOn : SwitchState := "On"

/-- Source `PropertyPermission` is a permission hint for the client. -/
abbrev PropertyPermission := String

def PropertyPermissionReadOnly : PropertyPermission := "ro"
def PropertyPermissionWriteOnly : PropertyPermission := "wo"
def PropertyPermissionReadWrite : PropertyPermission := "rw"

/-! ## Data model

Modelled from the spec: the record declarations live in a repository file that
is not under `src/`; fields follow §3 DATA MODEL and the field accesses in
`indiclient.go`. -/

/-- Modelled from the spec: a text value (label, name, string). -/
structure TextValue where
  label : String := ""
  name : String := ""
  value : String := ""
deriving DecidableEq, Repr

/-- Modelled from the spec: a number value (value kept as string to preserve
server-sent precision). -/
structure NumberValue where
  label : String := ""
  name : String := ""
  value : String := ""
  format : String := ""
  min : String := ""
  max : String := ""
  step : String := ""
deriving DecidableEq, Repr

/-- Modelled from the spec: a switch value (On/Off). -/
structure SwitchValue where
  label : String := ""
  name : String := ""
  value : SwitchState := ""
deriving DecidableEq, Repr

/-- Modelled from the spec: a light value (state-valued). -/
structure LightValue where
  label : String := ""
  name : String := ""
  value : PropertyState := ""
deriving DecidableEq, Repr

/-- Modelled from the spec: a BLOB value; `value` is the transient local file
path and `size` the byte count (`int64`); armed when `size > 0` and the path
is non-empty, empty otherwise. -/
structure BlobValue where
  label : String := ""
  name : String := ""
  value : String := ""
  size : Int := 0
deriving DecidableEq, Repr

/-- Modelled from the spec: a text property. -/
structure TextProperty where
  name : String := ""
  label : String := ""
  group : String := ""
  permissions : PropertyPermission := ""
  state : PropertyState := ""
  timeout : String := ""
  values : SMap TextValue := []
  messages : List String := []
deriving DecidableEq, Repr

/-- Modelled from the spec: a number property. -/
structure NumberProperty where
  name : String := ""
  label : String := ""
  group : String := ""
  permissions : PropertyPermission := ""
  state : PropertyState := ""
  timeout : String := ""
  values : SMap NumberValue := []
  messages : List String := []
deriving DecidableEq, Repr

/-- Modelled from the spec: a switch property (has a rule besides the common
attributes). -/
structure SwitchProperty where
  name : String := ""
  label : String := ""
  group : String := ""
  permissions : PropertyPermission := ""
  rule : String := ""
  state : PropertyState := ""
  timeout : String := ""
  values : SMap SwitchValue := []
  messages : List String := []
deriving DecidableEq, Repr

/-- Modelled from the spec: a light property (no permission, no timeout). -/
structure LightProperty where
  name : String := ""
  label : String := ""
  group : String := ""
  state : PropertyState := ""
  values : SMap LightValue := []
  messages : List String := []
deriving DecidableEq, Repr

/-- Modelled from the spec: a BLOB property.  `defBlobVector` in the source
never populates `permissions`, so defined BLOB properties keep the zero
value `""`. -/
structure BlobProperty where
  name : String := ""
  label : String := ""
  group : String := ""
  permissions : PropertyPermission := ""
  state : PropertyState := ""
  timeout : String := ""
  values : SMap BlobValue := []
  messages : List String := []
deriving DecidableEq, Repr

/-- Modelled from the spec: a device holds five independent kind-indexed
property maps and a message log. -/
structure Device where
  name : String := ""
  textProperties : SMap TextProperty := []
  numberProperties : SMap NumberProperty := []
  switchProperties : SMap SwitchProperty := []
  lightProperties : SMap LightProperty := []
  blobProperties : SMap BlobProperty := []
  messages : List String := []
deriving DecidableEq, Repr

/-- The device catalog (`INDIClient.devices`, a `map[string]Device`). -/
abbrev Catalog : Type := SMap Device

/-- The filesystem abstraction: file name to byte contents. -/
abbrev Fs : Type := SMap (List Nat)

/-! ## Wire messages

Modelled from the spec: the message record declarations are not under `src/`;
attributes follow §4.1 Wire codec and the field uses in `indiclient.go`.
Timestamp attributes feed only `LastUpdated` and are omitted. -/

/-- Modelled from the spec: a `defText`/`oneText` child element. -/
structure OneText where
  name : String := ""
  label : String := ""
  value : String := ""
deriving DecidableEq, Repr

/-- Modelled from the spec: a `defNumber`/`oneNumber` child element. -/
structure OneNumber where
  name : String := ""
  label : String := ""
  value : String := ""
  format : String := ""
  min : String := ""
  max : String := ""
  step : String := ""
deriving DecidableEq, Repr

/-- Modelled from the spec: a `defSwitch`/`oneSwitch` child element. -/
structure OneSwitch where
  name : String := ""
  label : String := ""
  value : SwitchState := ""
deriving DecidableEq, Repr

/-- Modelled from the spec: a `defLight`/`oneLight` child element. -/
structure OneLight where
  name : String := ""
  label : String := ""
  value : PropertyState := ""
deriving DecidableEq, Repr

/-- Modelled from the spec: a `defBLOB`/`oneBLOB` child element; `value` is
the base64 text content, `size` the advertised decoded length. -/
structure OneBlob where
  name : String := ""
  label : String := ""
  value : String := ""
  size : Int := 0
  format : String := ""
deriving DecidableEq, Repr

/-- Modelled from the spec: a `defTextVector` element. -/
structure DefTextVector where
  device : String := ""
  name : String := ""
  label : String := ""
  group : String := ""
  state : PropertyState := ""
  perm : PropertyPermission := ""
  message : String := ""
  texts : List OneText := []
deriving DecidableEq, Repr

/-- Modelled from the spec: a `defNumberVector` element. -/
structure DefNumberVector where
  device : String := ""
  name : String := ""
  label : String := ""
  group : String := ""
  state : PropertyState := ""
  perm : PropertyPermission := ""
  message : String := ""
  numbers : List OneNumber := []
deriving DecidableEq, Repr

/-- Modelled from the spec: a `defSwitchVector` element. -/
structure DefSwitchVector where
  device : String := ""
  name : String := ""
  label : String := ""
  group : String := ""
  state : PropertyState := ""
  perm : PropertyPermission := ""
  rule : String := ""
  message : String := ""
  switches : List OneSwitch := []
deriving DecidableEq, Repr

/-- Modelled from the spec: a `defLightVector` element. -/
structure DefLightVector where
  device : String := ""
  name : String := ""
  label : String := ""
  group : String := ""
  state : PropertyState := ""
  message : String := ""
  lights : List OneLight := []
deriving DecidableEq, Repr

/-- Modelled from the spec: a `defBLOBVector` element. -/
structure DefBlobVector where
  device : String := ""
  name : String := ""
  label : String := ""
  group : String := ""
  state : PropertyState := ""
  message : String := ""
  blobs : List OneBlob := []
deriving DecidableEq, Repr

/-- Modelled from the spec: a `setTextVector` element. -/
structure SetTextVector where
  device : String := ""
  name : String := ""
  state : PropertyState := ""
  timeout : String := ""
  message : String := ""
  texts : List OneText := []
deriving DecidableEq, Repr

/-- Modelled from the spec: a `setNumberVector` element. -/
structure SetNumberVector where
  device : String := ""
  name : String := ""
  state : PropertyState := ""
  timeout : String := ""
  message : String := ""
  numbers : List OneNumber := []
deriving DecidableEq, Repr

/-- Modelled from the spec: a `setSwitchVector` element. -/
structure SetSwitchVector where
  device : String := ""
  name : String := ""
  state : PropertyState := ""
  timeout : String := ""
  message : String := ""
  switches : List OneSwitch := []
deriving DecidableEq, Repr

/-- Modelled from the spec: a `setLightVector` element (no timeout). -/
structure SetLightVector where
  device : String := ""
  name : String := ""
  state : PropertyState := ""
  message : String := ""
  lights : List OneLight := []
deriving DecidableEq, Repr

/-- Modelled from the spec: a `setBLOBVector` element. -/
structure SetBlobVector where
  device : String := ""
  name : String := ""
  state : PropertyState := ""
  timeout : String := ""
  message : String := ""
  blobs : List OneBlob := []
deriving DecidableEq, Repr

/-- Modelled from the spec: a device-level `message` element. -/
structure Message where
  device : String := ""
  message : String := ""
deriving DecidableEq, Repr

/-- Modelled from the spec: a `delProperty` element. -/
structure DelProperty where
  device : String := ""
  name : String := ""
deriving DecidableEq, Repr

/-- Modelled from the spec: an outbound `newTextVector` command. -/
structure NewTextVector where
  device : String := ""
  name : String := ""
  texts : List OneText := []
deriving DecidableEq, Repr

/-- Modelled from the spec: an outbound `newNumberVector` command. -/
structure NewNumberVector where
  device : String := ""
  name : String := ""
  numbers : List OneNumber := []
deriving DecidableEq, Repr

/-- Modelled from the spec: an outbound `newSwitchVector` command. -/
structure NewSwitchVector where
  device : String := ""
  name : String := ""
  switches : List OneSwitch := []
deriving DecidableEq, Repr

/-- Modelled from the spec: an outbound `newBLOBVector` command. -/
structure NewBlobVector where
  device : String := ""
  name : String := ""
  blobs : List OneBlob := []
deriving DecidableEq, Repr

/-- Whitespace as Go's `strings.TrimSpace` sees it (the ASCII cases: space,
tab, newline, vertical tab, form feed, carriage return; exotic Unicode
spaces are not modelled). -/
def isGoSpace (ch : Char) : Bool :=
  ch == ' ' || ch == '\t' || ch == '\n' || ch == '\r' ||
    ch == Char.ofNat 11 || ch == Char.ofNat 12

/-- Go `strings.TrimSpace`: drop leading and trailing whitespace. -/
def trimSpace (s : String) : String :=
  String.mk (((s.data.dropWhile isGoSpace).reverse.dropWhile isGoSpace).reverse)

/-! ## Base64 decoding (Go `encoding/base64`, `StdEncoding` via `NewDecoder`) -/

/-- The value of a standard base64 alphabet character, `none` for characters
outside the alphabet. -/
def b64Val (ch : Char) : Option Nat :=
  if 'A' ≤ ch ∧ ch ≤ 'Z' then some (ch.toNat - 'A'.toNat)
  else if 'a' ≤ ch ∧ ch ≤ 'z' then some (ch.toNat - 'a'.toNat + 26)
  else if '0' ≤ ch ∧ ch ≤ '9' then some (ch.toNat - '0'.toNat + 52)
  else if ch = '+' then some 62
  else if ch = '/' then some 63
  else none

/-- Decode a newline-free base64 character stream quantum by quantum, as the
streaming standard decoder does: full 4-character quanta yield 3 bytes, a
final padded quantum yields 1 or 2 bytes, anything else (padding before the
end, stray length, invalid character) is an error. -/
def b64DecodeGroups : List Char → Option (List Nat)
  | [] => some []
  | c1 :: c2 :: c3 :: c4 :: rest =>
    match b64Val c1, b64Val c2 with
    | some v1, some v2 =>
      if c3 = '=' then
        if c4 = '=' ∧ rest = [] then some [v1 * 4 + v2 / 16]
        else none
      else
        match b64Val c3 with
        | some v3 =>
          if c4 = '=' then
            if rest = [] then some [v1 * 4 + v2 / 16, v2 % 16 * 16 + v3 / 4]
            else none
          else
            match b64Val c4 with
            | some v4 =>
              match b64DecodeGroups rest with
              | some bs =>
                some ((v1 * 4 + v2 / 16) :: (v2 % 16 * 16 + v3 / 4) :: (v3 % 4 * 64 + v4) :: bs)
              | none => none
            | none => none
        | none => none
    | _, _ => none
  | _ => none

/-- Go's base64 decoder skips carriage returns and newlines, then decodes
quanta. -/
def base64Decode (s : String) : Option (List Nat) :=
  b64DecodeGroups (s.data.filter (fun ch => !(ch == '\n' || ch == '\r')))

/-- Go `filepath.Base`: empty path gives ".", trailing slashes are dropped,
an all-slash path gives "/", otherwise the last path component. -/
def filepathBase (path : String) : String :=
  if path = "" then "."
  else
    let chars := (path.data.reverse.dropWhile (fun ch => ch == '/')).reverse
    if chars = [] then "/"
    else String.mk (chars.reverse.takeWhile (fun ch => !(ch == '/'))).reverse

/-! ## Catalog lookups and lazily-created devices -/

/-- Source `findDevice`: look a device up in the catalog. -/
def findDevice (c : Catalog) (name : String) : Option Device :=
  SMap.find c name

/-- Source `findOrCreateDevice`: the existing device, or a fresh one with the given
name and five empty property maps. -/
def findOrCreateDevice (c : Catalog) (name : String) : Device :=
  match findDevice c name with
  | some d => d
  | none => { name := name }

/-! ## Dispatcher-side catalog mutators (one per inbound message kind) -/

/-- The per-child loop body of `defTextVector`: store a fresh value built
from the message child. -/
def defTextStep (m : SMap TextValue) (val : OneText) : SMap TextValue :=
  SMap.insert m val.name { label := val.label, name := val.name, value := trimSpace val.value }

/-- The per-child loop body of `defSwitchVector`. -/
def defSwitchStep (m : SMap SwitchValue) (val : OneSwitch) : SMap SwitchValue :=
  SMap.insert m val.name { label := val.label, name := val.name, value := trimSpace val.value }

/-- The per-child loop body of `defNumberVector`. -/
def defNumberStep (m : SMap NumberValue) (val : OneNumber) : SMap NumberValue :=
  SMap.insert m val.name
    { label := val.label, name := val.name, value := trimSpace val.value,
      format := val.format, min := val.min, max := val.max, step := val.step }

/-- The per-child loop body of `defLightVector`. -/
def defLightStep (m : SMap LightValue) (val : OneLight) : SMap LightValue :=
  SMap.insert m val.name { label := val.label, name := val.name, value := trimSpace val.value }

/-- The per-child loop body of `defBlobVector`: only label and name are set,
so the value is empty. -/
def defBlobStep (m : SMap BlobValue) (val : OneBlob) : SMap BlobValue :=
  SMap.insert m val.name { label := val.label, name := val.name }

/-- The per-child loop body of `setTextVector`: overwrite an existing value
(trimmed), skip unknown names. -/
def setTextStep (m : SMap TextValue) (val : OneText) : SMap TextValue :=
  match SMap.find m val.name with
  | none => m
  | some v => SMap.insert m val.name { v with value := trimSpace val.value }

/-- The per-child loop body of `setSwitchVector`. -/
def setSwitchStep (m : SMap SwitchValue) (val : OneSwitch) : SMap SwitchValue :=
  match SMap.find m val.name with
  | none => m
  | some v => SMap.insert m val.name { v with value := trimSpace val.value }

/-- The per-child loop body of `setNumberVector`. -/
def setNumberStep (m : SMap NumberValue) (val : OneNumber) : SMap NumberValue :=
  match SMap.find m val.name with
  | none => m
  | some v => SMap.insert m val.name { v with value := trimSpace val.value }

/-- The per-child loop body of `setLightVector`. -/
def setLightStep (m : SMap LightValue) (val : OneLight) : SMap LightValue :=
  match SMap.find m val.name with
  | none => m
  | some v => SMap.insert m val.name { v with value := trimSpace val.value }


/-- Source `defTextVector`: replace the named text property wholesale with values
built from the message. -/
def defTextVector (c : Catalog) (item : DefTextVector) : Catalog :=
  let device := findOrCreateDevice c item.device
  let values := item.texts.foldl defTextStep ([] : SMap TextValue)
  let prop : TextProperty :=
    { name := item.name, label := item.label, group := item.group,
      permissions := item.perm, state := item.state, values := values,
      messages := if item.message.length > 0 then [item.message] else [] }
  SMap.insert c item.device
    { device with textProperties := SMap.insert device.textProperties item.name prop }

/-- Source `defSwitchVector`: replace the named switch property wholesale. -/
def defSwitchVector (c : Catalog) (item : DefSwitchVector) : Catalog :=
  let device := findOrCreateDevice c item.device
  let values := item.switches.foldl defSwitchStep ([] : SMap SwitchValue)
  let prop : SwitchProperty :=
    { name := item.name, label := item.label, group := item.group,
      permissions := item.perm, rule := item.rule, state := item.state,
      values := values,
      messages := if item.message.length > 0 then [item.message] else [] }
  SMap.insert c item.device
    { device with switchProperties := SMap.insert device.switchProperties item.name prop }

/-- Source `defNumberVector`: replace the named number property wholesale. -/
def defNumberVector (c : Catalog) (item : DefNumberVector) : Catalog :=
  let device := findOrCreateDevice c item.device
  let values := item.numbers.foldl defNumberStep ([] : SMap NumberValue)
  let prop : NumberProperty :=
    { name := item.name, label := item.label, group := item.group,
      permissions := item.perm, state := item.state, values := values,
      messages := if item.message.length > 0 then [item.message] else [] }
  SMap.insert c item.device
    { device with numberProperties := SMap.insert device.numberProperties item.name prop }

/-- Source `defLightVector`: replace the named light property wholesale. -/
def defLightVector (c : Catalog) (item : DefLightVector) : Catalog :=
  let device := findOrCreateDevice c item.device
  let values := item.lights.foldl defLightStep ([] : SMap LightValue)
  let prop : LightProperty :=
    { name := item.name, label := item.label, group := item.group,
      state := item.state, values := values,
      messages := if item.message.length > 0 then [item.message] else [] }
  SMap.insert c item.device
    { device with lightProperties := SMap.insert device.lightProperties item.name prop }

/-- Source `defBlobVector`: replace the named BLOB property wholesale; every value
is built with only label and name, hence empty (zero size, empty path). -/
def defBlobVector (c : Catalog) (item : DefBlobVector) : Catalog :=
  let device := findOrCreateDevice c item.device
  let values := item.blobs.foldl defBlobStep ([] : SMap BlobValue)
  let prop : BlobProperty :=
    { name := item.name, label := item.label, group := item.group,
      state := item.state, values := values,
      messages := if item.message.length > 0 then [item.message] else [] }
  SMap.insert c item.device
    { device with blobProperties := SMap.insert device.blobProperties item.name prop }

/-- Source `setTextVector`: no-op when device or property is missing; otherwise
overwrite state and timeout, and for each child whose name matches an
existing value overwrite the value (trimmed); unknown names are skipped. -/
def setTextVector (c : Catalog) (item : SetTextVector) : Catalog :=
  match findDevice c item.device with
  | none => c
  | some device =>
    match SMap.find device.textProperties item.name with
    | none => c
    | some prop =>
      let prop := { prop with state := item.state, timeout := item.timeout }
      let values := item.texts.foldl setTextStep prop.values
      let prop :=
        { prop with
            values := values
            messages := if item.message.length > 0
              then prop.messages ++ [item.message] else prop.messages }
      SMap.insert c item.device
        { device with textProperties := SMap.insert device.textProperties item.name prop }

/-- Source `setSwitchVector`: analogous to `setTextVector` for switch properties. -/
def setSwitchVector (c : Catalog) (item : SetSwitchVector) : Catalog :=
  match findDevice c item.device with
  | none => c
  | some device =>
    match SMap.find device.switchProperties item.name with
    | none => c
    | some prop =>
      let prop := { prop with state := item.state, timeout := item.timeout }
      let values := item.switches.foldl setSwitchStep prop.values
      let prop :=
        { prop with
            values := values
            messages := if item.message.length > 0
              then prop.messages ++ [item.message] else prop.messages }
      SMap.insert c item.device
        { device with switchProperties := SMap.insert device.switchProperties item.name prop }

/-- Source `setNumberVector`: analogous to `setTextVector` for number properties. -/
def setNumberVector (c : Catalog) (item : SetNumberVector) : Catalog :=
  match findDevice c item.device with
  | none => c
  | some device =>
    match SMap.find device.numberProperties item.name with
    | none => c
    | some prop =>
      let prop := { prop with state := item.state, timeout := item.timeout }
      let values := item.numbers.foldl setNumberStep prop.values
      let prop :=
        { prop with
            values := values
            messages := if item.message.length > 0
              then prop.messages ++ [item.message] else prop.messages }
      SMap.insert c item.device
        { device with numberProperties := SMap.insert device.numberProperties item.name prop }

/-- Source `setLightVector`: analogous, with state only (no timeout). -/
def setLightVector (c : Catalog) (item : SetLightVector) : Catalog :=
  match findDevice c item.device with
  | none => c
  | some device =>
    match SMap.find device.lightProperties item.name with
    | none => c
    | some prop =>
      let prop := { prop with state := item.state }
      let values := item.lights.foldl setLightStep prop.values
      let prop :=
        { prop with
            values := values
            messages := if item.message.length > 0
              then prop.messages ++ [item.message] else prop.messages }
      SMap.insert c item.device
        { device with lightProperties := SMap.insert device.lightProperties item.name prop }

/-- The body of the per-value loop of `setBlobVector`: skip unknown value
names; otherwise decode and write the file, and on success overwrite the
stored value's path and size. -/
def setBlobStep (item : SetBlobVector) (acc : Fs × SMap BlobValue) (val : OneBlob) :
    Fs × SMap BlobValue :=
  match SMap.find acc.2 val.name with
  | none => acc
  | some v =>
    let fname := item.device ++ "_" ++ item.name ++ "_" ++ val.name ++ val.format
    match base64Decode (trimSpace val.value) with
    | none => (SMap.insert acc.1 fname [], acc.2)
    | some bytes =>
      (SMap.insert acc.1 fname bytes,
       SMap.insert acc.2 val.name
         { v with value := fname, size := (bytes.length : Int) })

/-- Source `setBlobVector`: besides the state/timeout update, each matching child
is decoded from base64 (after trimming) and written to the file
`<device>_<property>_<value><format>` opened for truncating write; on success
the stored value's path becomes that file name and its size the number of
bytes written.  On a decode error the value is not updated (the file was
still truncated at open; the partial prefix written before the error is not
modelled). -/
def setBlobVector (fs : Fs) (c : Catalog) (item : SetBlobVector) : Fs × Catalog :=
  match findDevice c item.device with
  | none => (fs, c)
  | some device =>
    match SMap.find device.blobProperties item.name with
    | none => (fs, c)
    | some prop =>
      let prop := { prop with state := item.state, timeout := item.timeout }
      let res := item.blobs.foldl (setBlobStep item) (fs, prop.values)
      let prop :=
        { prop with
            values := res.2
            messages := if item.message.length > 0
              then prop.messages ++ [item.message] else prop.messages }
      (res.1,
       SMap.insert c item.device
         { device with blobProperties := SMap.insert device.blobProperties item.name prop })

/-- Source `message`: append to the device's message log; no-op for an unknown
device. -/
def deviceMessage (c : Catalog) (item : Message) : Catalog :=
  match findDevice c item.device with
  | none => c
  | some device =>
    SMap.insert c item.device { device with messages := device.messages ++ [item.message] }

/-- Source `delProperty`: with an empty device name the source iterates the device
map but returns inside the loop after the first deletion, so exactly one
device (the first iterated one) is removed; with an empty property name the
whole device is removed; otherwise the property name is deleted from all
five kind maps of the (found or freshly created) device, and the device is
stored back. -/
def delProperty (c : Catalog) (item : DelProperty) : Catalog :=
  if item.device.length = 0 then
    match c with
    | [] => []
    | (key, _) :: _ => SMap.erase c key
  else if item.name.length = 0 then
    SMap.erase c item.device
  else
    let device := findOrCreateDevice c item.device
    let device :=
      { device with
          textProperties := SMap.erase device.textProperties item.name
          numberProperties := SMap.erase device.numberProperties item.name
          switchProperties := SMap.erase device.switchProperties item.name
          lightProperties := SMap.erase device.lightProperties item.name
          blobProperties := SMap.erase device.blobProperties item.name }
    SMap.insert c item.device device

/-! ## The dispatcher -/

/-- The typed inbound message variant routed by the dispatcher. -/
inductive IndiMessage where
  | defText (item : DefTextVector)
  | defSwitch (item : DefSwitchVector)
  | defNumber (item : DefNumberVector)
  | defLight (item : DefLightVector)
  | defBlob (item : DefBlobVector)
  | setText (item : SetTextVector)
  | setSwitch (item : SetSwitchVector)
  | setNumber (item : SetNumberVector)
  | setLight (item : SetLightVector)
  | setBlob (item : SetBlobVector)
  | devMessage (item : Message)
  | delProp (item : DelProperty)
deriving DecidableEq, Repr

/-- One dispatcher step: route a message to its catalog mutator (run under
the exclusive lock in the source). -/
def dispatch (s : Fs × Catalog) (m : IndiMessage) : Fs × Catalog :=
  match m with
  | .defText item => (s.1, defTextVector s.2 item)
  | .defSwitch item => (s.1, defSwitchVector s.2 item)
  | .defNumber item => (s.1, defNumberVector s.2 item)
  | .defLight item => (s.1, defLightVector s.2 item)
  | .defBlob item => (s.1, defBlobVector s.2 item)
  | .setText item => (s.1, setTextVector s.2 item)
  | .setSwitch item => (s.1, setSwitchVector s.2 item)
  | .setNumber item => (s.1, setNumberVector s.2 item)
  | .setLight item => (s.1, setLightVector s.2 item)
  | .setBlob item => setBlobVector s.1 s.2 item
  | .devMessage item => (s.1, deviceMessage s.2 item)
  | .delProp item => (s.1, delProperty s.2 item)

/-- Apply a sequence of inbound messages in wire order. -/
def runMessages (msgs : List IndiMessage) (s : Fs × Catalog) : Fs × Catalog :=
  msgs.foldl dispatch s

/-! ## Client facade -/

/-- The error values returned by the facade (`ErrDeviceNotFound` etc.;
`lengthMismatch` and `setFailed` are the ad-hoc `errors.New` values). -/
inductive ClientError where
  | deviceNotFound
  | propertyStateBusy
  | propertyNotFound
  | propertyValueNotFound
  | propertyReadOnly
  | propertyWithoutDevice
  | invalidBlobEnable
  | blobNotFound
  | fsOpenFailed
  | lengthMismatch
  | setFailed (propertyName : String)
deriving DecidableEq, Repr

/-- Source `Devices()`: the list of device names. -/
def devicesList (c : Catalog) : List String :=
  SMap.keys c

/-- The catalog effect of `Disconnect` (and of `Connect`): the source calls
`delProperty(&DelProperty{})` with the zero-valued message to "clear out all
devices".  Connection and channel teardown are I/O and are not modelled. -/
def disconnectCatalogPurge (c : Catalog) : Catalog :=
  delProperty c {}

/-- Source `GetBlob`: on success returns the opened file's contents (the read
handle), the base name, the byte length, and the catalog after the call.
The source resets a local copy of the value (`val.Value = ""`, `val.Size = 0`)
but writes back only the property and device records, never the modified
copy, so the stored value keeps its path and size. -/
def getBlob (fs : Fs) (c : Catalog) (deviceName propName blobName : String) :
    Except ClientError (List Nat × String × Int × Catalog) :=
  match findDevice c deviceName with
  | none => .error .deviceNotFound
  | some device =>
    match SMap.find device.blobProperties propName with
    | none => .error .propertyNotFound
    | some prop =>
      match SMap.find prop.values blobName with
      | none => .error .propertyValueNotFound
      | some val =>
        if val.size = 0 ∨ val.name = "" then .error .blobNotFound
        else
          match SMap.find fs val.value with
          | none => .error .fsOpenFailed
          | some contents =>
            let fileName := filepathBase val.value
            let length := val.size
            let device :=
              { device with blobProperties := SMap.insert device.blobProperties propName prop }
            .ok (contents, fileName, length, SMap.insert c deviceName device)

/-- Source `BlobAvailable`: pure read; false on any failed lookup, and false when
the stored value has zero size or an empty `name` field. -/
def blobAvailable (c : Catalog) (deviceName propName blobName : String) : Bool :=
  match findDevice c deviceName with
  | none => false
  | some device =>
    match SMap.find device.blobProperties propName with
    | none => false
    | some prop =>
      match SMap.find prop.values blobName with
      | none => false
      | some val =>
        if val.size = 0 ∨ val.name = "" then false
        else true

/-- The validate-and-enqueue phase of `SetTextValue`, up to the release of
the writer lock: the returned triple is the catalog after the call, the
command enqueued on the write channel (if any), and the error returned
synchronously (if any). -/
def setTextValueStart (c : Catalog) (deviceName propName : String)
    (textNames textValues : List String) :
    Catalog × Option NewTextVector × Option ClientError :=
  if textNames.length ≠ textValues.length then (c, none, some .lengthMismatch)
  else
    match findDevice c deviceName with
    | none => (c, none, some .deviceNotFound)
    | some device =>
      match SMap.find device.textProperties propName with
      | none => (c, none, some .propertyNotFound)
      | some prop =>
        if prop.state = PropertyStateBusy then (c, none, some .propertyStateBusy)
        else if prop.permissions = PropertyPermissionReadOnly then
          (c, none, some .propertyReadOnly)
        else if textNames.any (fun n => (SMap.find prop.values n).isNone) then
          (c, none, some .propertyValueNotFound)
        else
          let prop := { prop with state := PropertyStateBusy }
          let c' := SMap.insert c deviceName
            { device with textProperties := SMap.insert device.textProperties propName prop }
          let texts := (textNames.zip textValues).map
            (fun nv => { name := nv.1, value := nv.2 : OneText })
          (c', some { device := deviceName, name := propName, texts := texts }, none)

/-- The validate-and-enqueue phase of `SetNumberValue`. -/
def setNumberValueStart (c : Catalog) (deviceName propName : String)
    (numberNames numberValues : List String) :
    Catalog × Option NewNumberVector × Option ClientError :=
  if numberNames.length ≠ numberValues.length then (c, none, some .lengthMismatch)
  else
    match findDevice c deviceName with
    | none => (c, none, some .deviceNotFound)
    | some device =>
      match SMap.find device.numberProperties propName with
      | none => (c, none, some .propertyNotFound)
      | some prop =>
        if prop.state = PropertyStateBusy then (c, none, some .propertyStateBusy)
        else if prop.permissions = PropertyPermissionReadOnly then
          (c, none, some .propertyReadOnly)
        else if numberNames.any (fun n => (SMap.find prop.values n).isNone) then
          (c, none, some .propertyValueNotFound)
        else
          let prop := { prop with state := PropertyStateBusy }
          let c' := SMap.insert c deviceName
            { device with numberProperties := SMap.insert device.numberProperties propName prop }
          let numbers := (numberNames.zip numberValues).map
            (fun nv => { name := nv.1, value := nv.2 : OneNumber })
          (c', some { device := deviceName, name := propName, numbers := numbers }, none)

/-- The validate-and-enqueue phase of `SetSwitchValue`. -/
def setSwitchValueStart (c : Catalog) (deviceName propName : String)
    (switchNames : List String) (switchValues : List SwitchState) :
    Catalog × Option NewSwitchVector × Option ClientError :=
  if switchNames.length ≠ switchValues.length then (c, none, some .lengthMismatch)
  else
    match findDevice c deviceName with
    | none => (c, none, some .deviceNotFound)
    | some device =>
      match SMap.find device.switchProperties propName with
      | none => (c, none, some .propertyNotFound)
      | some prop =>
        if prop.state = PropertyStateBusy then (c, none, some .propertyStateBusy)
        else if prop.permissions = PropertyPermissionReadOnly then
          (c, none, some .propertyReadOnly)
        else if switchNames.any (fun n => (SMap.find prop.values n).isNone) then
          (c, none, some .propertyValueNotFound)
        else
          let prop := { prop with state := PropertyStateBusy }
          let c' := SMap.insert c deviceName
            { device with switchProperties := SMap.insert device.switchProperties propName prop }
          let switches := (switchNames.zip switchValues).map
            (fun nv => { name := nv.1, value := nv.2 : OneSwitch })
          (c', some { device := deviceName, name := propName, switches := switches }, none)

/-- The validate-and-enqueue phase of `SetBlobValue` (single value, no
length check). -/
def setBlobValueStart (c : Catalog)
    (deviceName propName blobName blobValue blobFormat : String) (blobSize : Int) :
    Catalog × Option NewBlobVector × Option ClientError :=
  match findDevice c deviceName with
  | none => (c, none, some .deviceNotFound)
  | some device =>
    match SMap.find device.blobProperties propName with
    | none => (c, none, some .propertyNotFound)
    | some prop =>
      if prop.state = PropertyStateBusy then (c, none, some .propertyStateBusy)
      else if prop.permissions = PropertyPermissionReadOnly then
        (c, none, some .propertyReadOnly)
      else if (SMap.find prop.values blobName).isNone then
        (c, none, some .propertyValueNotFound)
      else
        let prop := { prop with state := PropertyStateBusy }
        let c' := SMap.insert c deviceName
          { device with blobProperties := SMap.insert device.blobProperties propName prop }
        let blobs : List OneBlob :=
          [{ name := blobName, value := blobValue, size := blobSize, format := blobFormat }]
        (c', some { device := deviceName, name := propName, blobs := blobs }, none)

/-- The polling phase shared by the four consumer set operations: the loop
reads the property state each iteration, breaks with success on `Ok`,
returns the `Unable to set ... property` error on `Alert`, and keeps
spinning on every other observation.  The argument is the finite sequence of
states the loop observes; `none` means the call has not returned after
observing the whole sequence. -/
def awaitPropertyResolution (propName : String) :
    List PropertyState → Option (Except ClientError Unit)
  | [] => none
  | s :: rest =>
    if s = PropertyStateOk then some (.ok ())
    else if s = PropertyStateAlert then some (.error (.setFailed propName))
    else awaitPropertyResolution propName rest

/-- What the polling loop of `SetTextValue` reads each iteration
(`c.devices[deviceName].TextProperties[propName].State`, with Go zero values
for missing device or property). -/
def observedTextState (c : Catalog) (deviceName propName : String) : PropertyState :=
  match findDevice c deviceName with
  | none => ""
  | some device =>
    match SMap.find device.textProperties propName with
    | none => ""
    | some prop => prop.state

/-- The switch analogue of `observedTextState`. -/
def observedSwitchState (c : Catalog) (deviceName propName : String) : PropertyState :=
  match findDevice c deviceName with
  | none => ""
  | some device =>
    match SMap.find device.switchProperties propName with
    | none => ""
    | some prop => prop.state

/-- The number analogue of `observedTextState`. -/
def observedNumberState (c : Catalog) (deviceName propName : String) : PropertyState :=
  match findDevice c deviceName with
  | none => ""
  | some device =>
    match SMap.find device.numberProperties propName with
    | none => ""
    | some prop => prop.state

/-- The BLOB analogue of `observedTextState`. -/
def observedBlobState (c : Catalog) (deviceName propName : String) : PropertyState :=
  match findDevice c deviceName with
  | none => ""
  | some device =>
    match SMap.find device.blobProperties propName with
    | none => ""
    | some prop => prop.state

/-! ## Property-map lookup helpers (used to state the theorems) -/

/-- The text property stored for (device, property), if any. -/
def textPropOf (c : Catalog) (deviceName propName : String) : Option TextProperty :=
  match findDevice c deviceName with
  | none => none
  | some device => SMap.find device.textProperties propName

/-- The number property stored for (device, property), if any. -/
def numberPropOf (c : Catalog) (deviceName propName : String) : Option NumberProperty :=
  match findDevice c deviceName with
  | none => none
  | some device => SMap.find device.numberProperties propName

/-- The switch property stored for (device, property), if any. -/
def switchPropOf (c : Catalog) (deviceName propName : String) : Option SwitchProperty :=
  match findDevice c deviceName with
  | none => none
  | some device => SMap.find device.switchProperties propName

/-- The light property stored for (device, property), if any. -/
def lightPropOf (c : Catalog) (deviceName propName : String) : Option LightProperty :=
  match findDevice c deviceName with
  | none => none
  | some device => SMap.find device.lightProperties propName

/-- The BLOB property stored for (device, property), if any. -/
def blobPropOf (c : Catalog) (deviceName propName : String) : Option BlobProperty :=
  match findDevice c deviceName with
  | none => none
  | some device => SMap.find device.blobProperties propName

/-- The BLOB value stored for (device, property, value), if any. -/
def blobValueOf (c : Catalog) (deviceName propName blobName : String) : Option BlobValue :=
  match blobPropOf c deviceName propName with
  | none => none
  | some prop => SMap.find prop.values blobName

end IndiClient
namespace IndiClient

/-! ## Helper lemmas: fold behaviour of the per-child loops -/

/-- A value name is present after the `defTextVector` child loop iff it is one
of the children's names or was present before. -/
theorem find_foldl_defTextStep_isSome (l : List OneText) (m₀ : SMap TextValue) (v : String) :
    (SMap.find (l.foldl defTextStep m₀) v).isSome = true ↔
      v ∈ l.map OneText.name ∨ (SMap.find m₀ v).isSome = true := by
  induction l generalizing m₀ with
  | nil => simp
  | cons b tl ih =>
    simp only [List.foldl_cons, List.map_cons, List.mem_cons]
    rw [ih]
    simp only [defTextStep, SMap.find_insert]
    by_cases hv : b.name = v
    · rw [if_pos hv]
      simp only [Option.isSome_some]
      exact ⟨fun _ => Or.inl (Or.inl hv.symm), fun _ => Or.inr trivial⟩
    · rw [if_neg hv]
      have hv' : ¬ v = b.name := fun h => hv h.symm
      simp [hv']

/-- A value name is present after the `defSwitchVector` child loop iff it is one
of the children's names or was present before. -/
theorem find_foldl_defSwitchStep_isSome (l : List OneSwitch) (m₀ : SMap SwitchValue) (v : String) :
    (SMap.find (l.foldl defSwitchStep m₀) v).isSome = true ↔
      v ∈ l.map OneSwitch.name ∨ (SMap.find m₀ v).isSome = true := by
  induction l generalizing m₀ with
  | nil => simp
  | cons b tl ih =>
    simp only [List.foldl_cons, List.map_cons, List.mem_cons]
    rw [ih]
    simp only [defSwitchStep, SMap.find_insert]
    by_cases hv : b.name = v
    · rw [if_pos hv]
      simp only [Option.isSome_some]
      exact ⟨fun _ => Or.inl (Or.inl hv.symm), fun _ => Or.inr trivial⟩
    · rw [if_neg hv]
      have hv' : ¬ v = b.name := fun h => hv h.symm
      simp [hv']

/-- A value name is present after the `defNumberVector` child loop iff it is one
of the children's names or was present before. -/
theorem find_foldl_defNumberStep_isSome (l : List OneNumber) (m₀ : SMap NumberValue) (v : String) :
    (SMap.find (l.foldl defNumberStep m₀) v).isSome = true ↔
      v ∈ l.map OneNumber.name ∨ (SMap.find m₀ v).isSome = true := by
  induction l generalizing m₀ with
  | nil => simp
  | cons b tl ih =>
    simp only [List.foldl_cons, List.map_cons, List.mem_cons]
    rw [ih]
    simp only [defNumberStep, SMap.find_insert]
    by_cases hv : b.name = v
    · rw [if_pos hv]
      simp only [Option.isSome_some]
      exact ⟨fun _ => Or.inl (Or.inl hv.symm), fun _ => Or.inr trivial⟩
    · rw [if_neg hv]
      have hv' : ¬ v = b.name := fun h => hv h.symm
      simp [hv']

/-- A value name is present after the `defLightVector` child loop iff it is one
of the children's names or was present before. -/
theorem find_foldl_defLightStep_isSome (l : List OneLight) (m₀ : SMap LightValue) (v : String) :
    (SMap.find (l.foldl defLightStep m₀) v).isSome = true ↔
      v ∈ l.map OneLight.name ∨ (SMap.find m₀ v).isSome = true := by
  induction l generalizing m₀ with
  | nil => simp
  | cons b tl ih =>
    simp only [List.foldl_cons, List.map_cons, List.mem_cons]
    rw [ih]
    simp only [defLightStep, SMap.find_insert]
    by_cases hv : b.name = v
    · rw [if_pos hv]
      simp only [Option.isSome_some]
      exact ⟨fun _ => Or.inl (Or.inl hv.symm), fun _ => Or.inr trivial⟩
    · rw [if_neg hv]
      have hv' : ¬ v = b.name := fun h => hv h.symm
      simp [hv']

/-- A value name is present after the `defBlobVector` child loop iff it is one
of the children's names or was present before. -/
theorem find_foldl_defBlobStep_isSome (l : List OneBlob) (m₀ : SMap BlobValue) (v : String) :
    (SMap.find (l.foldl defBlobStep m₀) v).isSome = true ↔
      v ∈ l.map OneBlob.name ∨ (SMap.find m₀ v).isSome = true := by
  induction l generalizing m₀ with
  | nil => simp
  | cons b tl ih =>
    simp only [List.foldl_cons, List.map_cons, List.mem_cons]
    rw [ih]
    simp only [defBlobStep, SMap.find_insert]
    by_cases hv : b.name = v
    · rw [if_pos hv]
      simp only [Option.isSome_some]
      exact ⟨fun _ => Or.inl (Or.inl hv.symm), fun _ => Or.inr trivial⟩
    · rw [if_neg hv]
      have hv' : ¬ v = b.name := fun h => hv h.symm
      simp [hv']

/-- Every value stored by the `defTextVector` child loop either comes from a
child of the message or was in the accumulator. -/
theorem find_foldl_defTextStep_eq_some (l : List OneText) (m₀ : SMap TextValue)
    (v : String) (tv : TextValue) (h : SMap.find (l.foldl defTextStep m₀) v = some tv) :
    (∃ e ∈ l, e.name = v ∧ tv = { label := e.label, name := e.name, value := trimSpace e.value }) ∨
      SMap.find m₀ v = some tv := by
  induction l generalizing m₀ with
  | nil => exact Or.inr h
  | cons b tl ih =>
    rw [List.foldl_cons] at h
    rcases ih _ h with hmem | hfound
    · obtain ⟨e, he, hn, hv⟩ := hmem
      exact Or.inl ⟨e, List.mem_cons_of_mem _ he, hn, hv⟩
    · simp only [defTextStep, SMap.find_insert] at hfound
      by_cases hv : b.name = v
      · rw [if_pos hv] at hfound
        exact Or.inl ⟨b, List.mem_cons_self _ _, hv, (Option.some.injEq _ _ ▸ hfound).symm⟩
      · rw [if_neg hv] at hfound
        exact Or.inr hfound

/-- Every value stored by the `defSwitchVector` child loop either comes from a
child of the message or was in the accumulator. -/
theorem find_foldl_defSwitchStep_eq_some (l : List OneSwitch) (m₀ : SMap SwitchValue)
    (v : String) (tv : SwitchValue) (h : SMap.find (l.foldl defSwitchStep m₀) v = some tv) :
    (∃ e ∈ l, e.name = v ∧ tv = { label := e.label, name := e.name, value := trimSpace e.value }) ∨
      SMap.find m₀ v = some tv := by
  induction l generalizing m₀ with
  | nil => exact Or.inr h
  | cons b tl ih =>
    rw [List.foldl_cons] at h
    rcases ih _ h with hmem | hfound
    · obtain ⟨e, he, hn, hv⟩ := hmem
      exact Or.inl ⟨e, List.mem_cons_of_mem _ he, hn, hv⟩
    · simp only [defSwitchStep, SMap.find_insert] at hfound
      by_cases hv : b.name = v
      · rw [if_pos hv] at hfound
        exact Or.inl ⟨b, List.mem_cons_self _ _, hv, (Option.some.injEq _ _ ▸ hfound).symm⟩
      · rw [if_neg hv] at hfound
        exact Or.inr hfound

/-- Every value stored by the `defNumberVector` child loop either comes from a
child of the message or was in the accumulator. -/
theorem find_foldl_defNumberStep_eq_some (l : List OneNumber) (m₀ : SMap NumberValue)
    (v : String) (tv : NumberValue) (h : SMap.find (l.foldl defNumberStep m₀) v = some tv) :
    (∃ e ∈ l, e.name = v ∧ tv = { label := e.label, name := e.name, value := trimSpace e.value, format := e.format, min := e.min, max := e.max, step := e.step }) ∨
      SMap.find m₀ v = some tv := by
  induction l generalizing m₀ with
  | nil => exact Or.inr h
  | cons b tl ih =>
    rw [List.foldl_cons] at h
    rcases ih _ h with hmem | hfound
    · obtain ⟨e, he, hn, hv⟩ := hmem
      exact Or.inl ⟨e, List.mem_cons_of_mem _ he, hn, hv⟩
    · simp only [defNumberStep, SMap.find_insert] at hfound
      by_cases hv : b.name = v
      · rw [if_pos hv] at hfound
        exact Or.inl ⟨b, List.mem_cons_self _ _, hv, (Option.some.injEq _ _ ▸ hfound).symm⟩
      · rw [if_neg hv] at hfound
        exact Or.inr hfound

/-- Every value stored by the `defLightVector` child loop either comes from a
child of the message or was in the accumulator. -/
theorem find_foldl_defLightStep_eq_some (l : List OneLight) (m₀ : SMap LightValue)
    (v : String) (tv : LightValue) (h : SMap.find (l.foldl defLightStep m₀) v = some tv) :
    (∃ e ∈ l, e.name = v ∧ tv = { label := e.label, name := e.name, value := trimSpace e.value }) ∨
      SMap.find m₀ v = some tv := by
  induction l generalizing m₀ with
  | nil => exact Or.inr h
  | cons b tl ih =>
    rw [List.foldl_cons] at h
    rcases ih _ h with hmem | hfound
    · obtain ⟨e, he, hn, hv⟩ := hmem
      exact Or.inl ⟨e, List.mem_cons_of_mem _ he, hn, hv⟩
    · simp only [defLightStep, SMap.find_insert] at hfound
      by_cases hv : b.name = v
      · rw [if_pos hv] at hfound
        exact Or.inl ⟨b, List.mem_cons_self _ _, hv, (Option.some.injEq _ _ ▸ hfound).symm⟩
      · rw [if_neg hv] at hfound
        exact Or.inr hfound

/-- Every value stored by the `defBlobVector` child loop either comes from a
child of the message or was in the accumulator. -/
theorem find_foldl_defBlobStep_eq_some (l : List OneBlob) (m₀ : SMap BlobValue)
    (v : String) (tv : BlobValue) (h : SMap.find (l.foldl defBlobStep m₀) v = some tv) :
    (∃ e ∈ l, e.name = v ∧ tv = { label := e.label, name := e.name }) ∨
      SMap.find m₀ v = some tv := by
  induction l generalizing m₀ with
  | nil => exact Or.inr h
  | cons b tl ih =>
    rw [List.foldl_cons] at h
    rcases ih _ h with hmem | hfound
    · obtain ⟨e, he, hn, hv⟩ := hmem
      exact Or.inl ⟨e, List.mem_cons_of_mem _ he, hn, hv⟩
    · simp only [defBlobStep, SMap.find_insert] at hfound
      by_cases hv : b.name = v
      · rw [if_pos hv] at hfound
        exact Or.inl ⟨b, List.mem_cons_self _ _, hv, (Option.some.injEq _ _ ▸ hfound).symm⟩
      · rw [if_neg hv] at hfound
        exact Or.inr hfound

/-- The `setTextVector` child loop never changes which value names exist. -/
theorem find_foldl_setTextStep_isSome (l : List OneText) (m₀ : SMap TextValue) (v : String) :
    (SMap.find (l.foldl setTextStep m₀) v).isSome = (SMap.find m₀ v).isSome := by
  induction l generalizing m₀ with
  | nil => rfl
  | cons b tl ih =>
    rw [List.foldl_cons, ih]
    simp only [setTextStep]
    split
    · rfl
    next x hf =>
      by_cases hv : b.name = v
      · subst hv; simp [SMap.find_insert, hf]
      · simp [SMap.find_insert, hv]

/-- The `setSwitchVector` child loop never changes which value names exist. -/
theorem find_foldl_setSwitchStep_isSome (l : List OneSwitch) (m₀ : SMap SwitchValue) (v : String) :
    (SMap.find (l.foldl setSwitchStep m₀) v).isSome = (SMap.find m₀ v).isSome := by
  induction l generalizing m₀ with
  | nil => rfl
  | cons b tl ih =>
    rw [List.foldl_cons, ih]
    simp only [setSwitchStep]
    split
    · rfl
    next x hf =>
      by_cases hv : b.name = v
      · subst hv; simp [SMap.find_insert, hf]
      · simp [SMap.find_insert, hv]

/-- The `setNumberVector` child loop never changes which value names exist. -/
theorem find_foldl_setNumberStep_isSome (l : List OneNumber) (m₀ : SMap NumberValue) (v : String) :
    (SMap.find (l.foldl setNumberStep m₀) v).isSome = (SMap.find m₀ v).isSome := by
  induction l generalizing m₀ with
  | nil => rfl
  | cons b tl ih =>
    rw [List.foldl_cons, ih]
    simp only [setNumberStep]
    split
    · rfl
    next x hf =>
      by_cases hv : b.name = v
      · subst hv; simp [SMap.find_insert, hf]
      · simp [SMap.find_insert, hv]

/-- The `setLightVector` child loop never changes which value names exist. -/
theorem find_foldl_setLightStep_isSome (l : List OneLight) (m₀ : SMap LightValue) (v : String) :
    (SMap.find (l.foldl setLightStep m₀) v).isSome = (SMap.find m₀ v).isSome := by
  induction l generalizing m₀ with
  | nil => rfl
  | cons b tl ih =>
    rw [List.foldl_cons, ih]
    simp only [setLightStep]
    split
    · rfl
    next x hf =>
      by_cases hv : b.name = v
      · subst hv; simp [SMap.find_insert, hf]
      · simp [SMap.find_insert, hv]

/-- The `setBlobVector` child loop never changes which value names exist. -/
theorem find_foldl_setBlobStep_isSome (item : SetBlobVector) (l : List OneBlob)
    (acc : Fs × SMap BlobValue) (v : String) :
    (SMap.find (l.foldl (setBlobStep item) acc).2 v).isSome = (SMap.find acc.2 v).isSome := by
  induction l generalizing acc with
  | nil => rfl
  | cons b tl ih =>
    rw [List.foldl_cons, ih]
    simp only [setBlobStep]
    split
    · rfl
    next x hf =>
      split
      · rfl
      next bytes hdec =>
        by_cases hv : b.name = v
        · subst hv; simp [SMap.find_insert, hf]
        · simp [SMap.find_insert, hv]

/-! ## Helper lemmas: effect of each mutator on each kind's property map -/

/-- Whether a text value with the given name is stored for
(device, property). -/
def textValueMem (c : Catalog) (d p v : String) : Bool :=
  match textPropOf c d p with
  | none => false
  | some prop => (SMap.find prop.values v).isSome

/-- Whether a switch value with the given name is stored for
(device, property). -/
def switchValueMem (c : Catalog) (d p v : String) : Bool :=
  match switchPropOf c d p with
  | none => false
  | some prop => (SMap.find prop.values v).isSome

/-- Whether a number value with the given name is stored for
(device, property). -/
def numberValueMem (c : Catalog) (d p v : String) : Bool :=
  match numberPropOf c d p with
  | none => false
  | some prop => (SMap.find prop.values v).isSome

/-- Whether a light value with the given name is stored for
(device, property). -/
def lightValueMem (c : Catalog) (d p v : String) : Bool :=
  match lightPropOf c d p with
  | none => false
  | some prop => (SMap.find prop.values v).isSome

/-- Whether a blob value with the given name is stored for
(device, property). -/
def blobValueMem (c : Catalog) (d p v : String) : Bool :=
  match blobPropOf c d p with
  | none => false
  | some prop => (SMap.find prop.values v).isSome

/-- Source `defTextVector` replaces exactly the addressed text property with the
freshly built one and touches no other text property. -/
theorem textPropOf_defTextVector (c : Catalog) (item : DefTextVector) (d p : String) :
    textPropOf (defTextVector c item) d p =
      if item.device = d ∧ item.name = p then
        some { name := item.name, label := item.label, group := item.group,
               permissions := item.perm, state := item.state,
               values := item.texts.foldl defTextStep [],
               messages := if item.message.length > 0 then [item.message] else [] }
      else textPropOf c d p := by
  simp only [textPropOf, defTextVector, findOrCreateDevice, findDevice]
  by_cases hd : item.device = d
  · subst hd
    rw [SMap.find_insert_self]
    by_cases hp : item.name = p
    · subst hp
      cases hc : SMap.find c item.device <;>
        simp only [hc] <;> simp [SMap.find_insert_self]
    · cases hc : SMap.find c item.device <;>
        simp only [hc] <;> simp [SMap.find_insert_ne _ _ _ _ hp, hp, SMap.find]
  · rw [SMap.find_insert_ne _ _ _ _ hd]
    simp [hd]

/-- Source `defSwitchVector` replaces exactly the addressed switch property with the
freshly built one and touches no other switch property. -/
theorem switchPropOf_defSwitchVector (c : Catalog) (item : DefSwitchVector) (d p : String) :
    switchPropOf (defSwitchVector c item) d p =
      if item.device = d ∧ item.name = p then
        some { name := item.name, label := item.label, group := item.group,
               permissions := item.perm, rule := item.rule, state := item.state,
               values := item.switches.foldl defSwitchStep [],
               messages := if item.message.length > 0 then [item.message] else [] }
      else switchPropOf c d p := by
  simp only [switchPropOf, defSwitchVector, findOrCreateDevice, findDevice]
  by_cases hd : item.device = d
  · subst hd
    rw [SMap.find_insert_self]
    by_cases hp : item.name = p
    · subst hp
      cases hc : SMap.find c item.device <;>
        simp only [hc] <;> simp [SMap.find_insert_self]
    · cases hc : SMap.find c item.device <;>
        simp only [hc] <;> simp [SMap.find_insert_ne _ _ _ _ hp, hp, SMap.find]
  · rw [SMap.find_insert_ne _ _ _ _ hd]
    simp [hd]

/-- Source `defNumberVector` replaces exactly the addressed number property with the
freshly built one and touches no other number property. -/
theorem numberPropOf_defNumberVector (c : Catalog) (item : DefNumberVector) (d p : String) :
    numberPropOf (defNumberVector c item) d p =
      if item.device = d ∧ item.name = p then
        some { name := item.name, label := item.label, group := item.group,
               permissions := item.perm, state := item.state,
               values := item.numbers.foldl defNumberStep [],
               messages := if item.message.length > 0 then [item.message] else [] }
      else numberPropOf c d p := by
  simp only [numberPropOf, defNumberVector, findOrCreateDevice, findDevice]
  by_cases hd : item.device = d
  · subst hd
    rw [SMap.find_insert_self]
    by_cases hp : item.name = p
    · subst hp
      cases hc : SMap.find c item.device <;>
        simp only [hc] <;> simp [SMap.find_insert_self]
    · cases hc : SMap.find c item.device <;>
        simp only [hc] <;> simp [SMap.find_insert_ne _ _ _ _ hp, hp, SMap.find]
  · rw [SMap.find_insert_ne _ _ _ _ hd]
    simp [hd]

/-- Source `defLightVector` replaces exactly the addressed light property with the
freshly built one and touches no other light property. -/
theorem lightPropOf_defLightVector (c : Catalog) (item : DefLightVector) (d p : String) :
    lightPropOf (defLightVector c item) d p =
      if item.device = d ∧ item.name = p then
        some { name := item.name, label := item.label, group := item.group,
               state := item.state,
               values := item.lights.foldl defLightStep [],
               messages := if item.message.length > 0 then [item.message] else [] }
      else lightPropOf c d p := by
  simp only [lightPropOf, defLightVector, findOrCreateDevice, findDevice]
  by_cases hd : item.device = d
  · subst hd
    rw [SMap.find_insert_self]
    by_cases hp : item.name = p
    · subst hp
      cases hc : SMap.find c item.device <;>
        simp only [hc] <;> simp [SMap.find_insert_self]
    · cases hc : SMap.find c item.device <;>
        simp only [hc] <;> simp [SMap.find_insert_ne _ _ _ _ hp, hp, SMap.find]
  · rw [SMap.find_insert_ne _ _ _ _ hd]
    simp [hd]

/-- Source `defBlobVector` replaces exactly the addressed blob property with the
freshly built one and touches no other blob property. -/
theorem blobPropOf_defBlobVector (c : Catalog) (item : DefBlobVector) (d p : String) :
    blobPropOf (defBlobVector c item) d p =
      if item.device = d ∧ item.name = p then
        some { name := item.name, label := item.label, group := item.group,
               state := item.state,
               values := item.blobs.foldl defBlobStep [],
               messages := if item.message.length > 0 then [item.message] else [] }
      else blobPropOf c d p := by
  simp only [blobPropOf, defBlobVector, findOrCreateDevice, findDevice]
  by_cases hd : item.device = d
  · subst hd
    rw [SMap.find_insert_self]
    by_cases hp : item.name = p
    · subst hp
      cases hc : SMap.find c item.device <;>
        simp only [hc] <;> simp [SMap.find_insert_self]
    · cases hc : SMap.find c item.device <;>
        simp only [hc] <;> simp [SMap.find_insert_ne _ _ _ _ hp, hp, SMap.find]
  · rw [SMap.find_insert_ne _ _ _ _ hd]
    simp [hd]

/-- Source `defSwitchVector` leaves every text property unchanged. -/
theorem textPropOf_defSwitchVector (c : Catalog) (item : DefSwitchVector) (d p : String) :
    textPropOf (defSwitchVector c item) d p = textPropOf c d p := by
  simp only [textPropOf, defSwitchVector, findOrCreateDevice, findDevice]
  by_cases hd : item.device = d
  · subst hd
    rw [SMap.find_insert_self]
    cases hc : SMap.find c item.device <;> simp only [hc] <;> simp [SMap.find]
  · rw [SMap.find_insert_ne _ _ _ _ hd]

/-- Source `defNumberVector` leaves every text property unchanged. -/
theorem textPropOf_defNumberVector (c : Catalog) (item : DefNumberVector) (d p : String) :
    textPropOf (defNumberVector c item) d p = textPropOf c d p := by
  simp only [textPropOf, defNumberVector, findOrCreateDevice, findDevice]
  by_cases hd : item.device = d
  · subst hd
    rw [SMap.find_insert_self]
    cases hc : SMap.find c item.device <;> simp only [hc] <;> simp [SMap.find]
  · rw [SMap.find_insert_ne _ _ _ _ hd]

/-- Source `defLightVector` leaves every text property unchanged. -/
theorem textPropOf_defLightVector (c : Catalog) (item : DefLightVector) (d p : String) :
    textPropOf (defLightVector c item) d p = textPropOf c d p := by
  simp only [textPropOf, defLightVector, findOrCreateDevice, findDevice]
  by_cases hd : item.device = d
  · subst hd
    rw [SMap.find_insert_self]
    cases hc : SMap.find c item.device <;> simp only [hc] <;> simp [SMap.find]
  · rw [SMap.find_insert_ne _ _ _ _ hd]

/-- Source `defBlobVector` leaves every text property unchanged. -/
theorem textPropOf_defBlobVector (c : Catalog) (item : DefBlobVector) (d p : String) :
    textPropOf (defBlobVector c item) d p = textPropOf c d p := by
  simp only [textPropOf, defBlobVector, findOrCreateDevice, findDevice]
  by_cases hd : item.device = d
  · subst hd
    rw [SMap.find_insert_self]
    cases hc : SMap.find c item.device <;> simp only [hc] <;> simp [SMap.find]
  · rw [SMap.find_insert_ne _ _ _ _ hd]

/-- Source `defTextVector` leaves every switch property unchanged. -/
theorem switchPropOf_defTextVector (c : Catalog) (item : DefTextVector) (d p : String) :
    switchPropOf (defTextVector c item) d p = switchPropOf c d p := by
  simp only [switchPropOf, defTextVector, findOrCreateDevice, findDevice]
  by_cases hd : item.device = d
  · subst hd
    rw [SMap.find_insert_self]
    cases hc : SMap.find c item.device <;> simp only [hc] <;> simp [SMap.find]
  · rw [SMap.find_insert_ne _ _ _ _ hd]

/-- Source `defNumberVector` leaves every switch property unchanged. -/
theorem switchPropOf_defNumberVector (c : Catalog) (item : DefNumberVector) (d p : String) :
    switchPropOf (defNumberVector c item) d p = switchPropOf c d p := by
  simp only [switchPropOf, defNumberVector, findOrCreateDevice, findDevice]
  by_cases hd : item.device = d
  · subst hd
    rw [SMap.find_insert_self]
    cases hc : SMap.find c item.device <;> simp only [hc] <;> simp [SMap.find]
  · rw [SMap.find_insert_ne _ _ _ _ hd]

/-- Source `defLightVector` leaves every switch property unchanged. -/
theorem switchPropOf_defLightVector (c : Catalog) (item : DefLightVector) (d p : String) :
    switchPropOf (defLightVector c item) d p = switchPropOf c d p := by
  simp only [switchPropOf, defLightVector, findOrCreateDevice, findDevice]
  by_cases hd : item.device = d
  · subst hd
    rw [SMap.find_insert_self]
    cases hc : SMap.find c item.device <;> simp only [hc] <;> simp [SMap.find]
  · rw [SMap.find_insert_ne _ _ _ _ hd]

/-- Source `defBlobVector` leaves every switch property unchanged. -/
theorem switchPropOf_defBlobVector (c : Catalog) (item : DefBlobVector) (d p : String) :
    switchPropOf (defBlobVector c item) d p = switchPropOf c d p := by
  simp only [switchPropOf, defBlobVector, findOrCreateDevice, findDevice]
  by_cases hd : item.device = d
  · subst hd
    rw [SMap.find_insert_self]
    cases hc : SMap.find c item.device <;> simp only [hc] <;> simp [SMap.find]
  · rw [SMap.find_insert_ne _ _ _ _ hd]

/-- Source `defTextVector` leaves every number property unchanged. -/
theorem numberPropOf_defTextVector (c : Catalog) (item : DefTextVector) (d p : String) :
    numberPropOf (defTextVector c item) d p = numberPropOf c d p := by
  simp only [numberPropOf, defTextVector, findOrCreateDevice, findDevice]
  by_cases hd : item.device = d
  · subst hd
    rw [SMap.find_insert_self]
    cases hc : SMap.find c item.device <;> simp only [hc] <;> simp [SMap.find]
  · rw [SMap.find_insert_ne _ _ _ _ hd]

/-- Source `defSwitchVector` leaves every number property unchanged. -/
theorem numberPropOf_defSwitchVector (c : Catalog) (item : DefSwitchVector) (d p : String) :
    numberPropOf (defSwitchVector c item) d p = numberPropOf c d p := by
  simp only [numberPropOf, defSwitchVector, findOrCreateDevice, findDevice]
  by_cases hd : item.device = d
  · subst hd
    rw [SMap.find_insert_self]
    cases hc : SMap.find c item.device <;> simp only [hc] <;> simp [SMap.find]
  · rw [SMap.find_insert_ne _ _ _ _ hd]

/-- Source `defLightVector` leaves every number property unchanged. -/
theorem numberPropOf_defLightVector (c : Catalog) (item : DefLightVector) (d p : String) :
    numberPropOf (defLightVector c item) d p = numberPropOf c d p := by
  simp only [numberPropOf, defLightVector, findOrCreateDevice, findDevice]
  by_cases hd : item.device = d
  · subst hd
    rw [SMap.find_insert_self]
    cases hc : SMap.find c item.device <;> simp only [hc] <;> simp [SMap.find]
  · rw [SMap.find_insert_ne _ _ _ _ hd]

/-- Source `defBlobVector` leaves every number property unchanged. -/
theorem numberPropOf_defBlobVector (c : Catalog) (item : DefBlobVector) (d p : String) :
    numberPropOf (defBlobVector c item) d p = numberPropOf c d p := by
  simp only [numberPropOf, defBlobVector, findOrCreateDevice, findDevice]
  by_cases hd : item.device = d
  · subst hd
    rw [SMap.find_insert_self]
    cases hc : SMap.find c item.device <;> simp only [hc] <;> simp [SMap.find]
  · rw [SMap.find_insert_ne _ _ _ _ hd]

/-- Source `defTextVector` leaves every light property unchanged. -/
theorem lightPropOf_defTextVector (c : Catalog) (item : DefTextVector) (d p : String) :
    lightPropOf (defTextVector c item) d p = lightPropOf c d p := by
  simp only [lightPropOf, defTextVector, findOrCreateDevice, findDevice]
  by_cases hd : item.device = d
  · subst hd
    rw [SMap.find_insert_self]
    cases hc : SMap.find c item.device <;> simp only [hc] <;> simp [SMap.find]
  · rw [SMap.find_insert_ne _ _ _ _ hd]

/-- Source `defSwitchVector` leaves every light property unchanged. -/
theorem lightPropOf_defSwitchVector (c : Catalog) (item : DefSwitchVector) (d p : String) :
    lightPropOf (defSwitchVector c item) d p = lightPropOf c d p := by
  simp only [lightPropOf, defSwitchVector, findOrCreateDevice, findDevice]
  by_cases hd : item.device = d
  · subst hd
    rw [SMap.find_insert_self]
    cases hc : SMap.find c item.device <;> simp only [hc] <;> simp [SMap.find]
  · rw [SMap.find_insert_ne _ _ _ _ hd]

/-- Source `defNumberVector` leaves every light property unchanged. -/
theorem lightPropOf_defNumberVector (c : Catalog) (item : DefNumberVector) (d p : String) :
    lightPropOf (defNumberVector c item) d p = lightPropOf c d p := by
  simp only [lightPropOf, defNumberVector, findOrCreateDevice, findDevice]
  by_cases hd : item.device = d
  · subst hd
    rw [SMap.find_insert_self]
    cases hc : SMap.find c item.device <;> simp only [hc] <;> simp [SMap.find]
  · rw [SMap.find_insert_ne _ _ _ _ hd]

/-- Source `defBlobVector` leaves every light property unchanged. -/
theorem lightPropOf_defBlobVector (c : Catalog) (item : DefBlobVector) (d p : String) :
    lightPropOf (defBlobVector c item) d p = lightPropOf c d p := by
  simp only [lightPropOf, defBlobVector, findOrCreateDevice, findDevice]
  by_cases hd : item.device = d
  · subst hd
    rw [SMap.find_insert_self]
    cases hc : SMap.find c item.device <;> simp only [hc] <;> simp [SMap.find]
  · rw [SMap.find_insert_ne _ _ _ _ hd]

/-- Source `defTextVector` leaves every blob property unchanged. -/
theorem blobPropOf_defTextVector (c : Catalog) (item : DefTextVector) (d p : String) :
    blobPropOf (defTextVector c item) d p = blobPropOf c d p := by
  simp only [blobPropOf, defTextVector, findOrCreateDevice, findDevice]
  by_cases hd : item.device = d
  · subst hd
    rw [SMap.find_insert_self]
    cases hc : SMap.find c item.device <;> simp only [hc] <;> simp [SMap.find]
  · rw [SMap.find_insert_ne _ _ _ _ hd]

/-- Source `defSwitchVector` leaves every blob property unchanged. -/
theorem blobPropOf_defSwitchVector (c : Catalog) (item : DefSwitchVector) (d p : String) :
    blobPropOf (defSwitchVector c item) d p = blobPropOf c d p := by
  simp only [blobPropOf, defSwitchVector, findOrCreateDevice, findDevice]
  by_cases hd : item.device = d
  · subst hd
    rw [SMap.find_insert_self]
    cases hc : SMap.find c item.device <;> simp only [hc] <;> simp [SMap.find]
  · rw [SMap.find_insert_ne _ _ _ _ hd]

/-- Source `defNumberVector` leaves every blob property unchanged. -/
theorem blobPropOf_defNumberVector (c : Catalog) (item : DefNumberVector) (d p : String) :
    blobPropOf (defNumberVector c item) d p = blobPropOf c d p := by
  simp only [blobPropOf, defNumberVector, findOrCreateDevice, findDevice]
  by_cases hd : item.device = d
  · subst hd
    rw [SMap.find_insert_self]
    cases hc : SMap.find c item.device <;> simp only [hc] <;> simp [SMap.find]
  · rw [SMap.find_insert_ne _ _ _ _ hd]

/-- Source `defLightVector` leaves every blob property unchanged. -/
theorem blobPropOf_defLightVector (c : Catalog) (item : DefLightVector) (d p : String) :
    blobPropOf (defLightVector c item) d p = blobPropOf c d p := by
  simp only [blobPropOf, defLightVector, findOrCreateDevice, findDevice]
  by_cases hd : item.device = d
  · subst hd
    rw [SMap.find_insert_self]
    cases hc : SMap.find c item.device <;> simp only [hc] <;> simp [SMap.find]
  · rw [SMap.find_insert_ne _ _ _ _ hd]

/-- Source `setSwitchVector` leaves every text property unchanged. -/
theorem textPropOf_setSwitchVector (c : Catalog) (item : SetSwitchVector) (d p : String) :
    textPropOf (setSwitchVector c item) d p = textPropOf c d p := by
  simp only [setSwitchVector, findDevice]
  split
  · rfl
  next dev hc =>
    split
    · rfl
    next prop hp =>
      simp only [textPropOf, findDevice]
      by_cases hd : item.device = d
      · subst hd
        rw [SMap.find_insert_self]
        simp [hc]
      · rw [SMap.find_insert_ne _ _ _ _ hd]

/-- Source `setNumberVector` leaves every text property unchanged. -/
theorem textPropOf_setNumberVector (c : Catalog) (item : SetNumberVector) (d p : String) :
    textPropOf (setNumberVector c item) d p = textPropOf c d p := by
  simp only [setNumberVector, findDevice]
  split
  · rfl
  next dev hc =>
    split
    · rfl
    next prop hp =>
      simp only [textPropOf, findDevice]
      by_cases hd : item.device = d
      · subst hd
        rw [SMap.find_insert_self]
        simp [hc]
      · rw [SMap.find_insert_ne _ _ _ _ hd]

/-- Source `setLightVector` leaves every text property unchanged. -/
theorem textPropOf_setLightVector (c : Catalog) (item : SetLightVector) (d p : String) :
    textPropOf (setLightVector c item) d p = textPropOf c d p := by
  simp only [setLightVector, findDevice]
  split
  · rfl
  next dev hc =>
    split
    · rfl
    next prop hp =>
      simp only [textPropOf, findDevice]
      by_cases hd : item.device = d
      · subst hd
        rw [SMap.find_insert_self]
        simp [hc]
      · rw [SMap.find_insert_ne _ _ _ _ hd]

/-- Source `setTextVector` leaves every switch property unchanged. -/
theorem switchPropOf_setTextVector (c : Catalog) (item : SetTextVector) (d p : String) :
    switchPropOf (setTextVector c item) d p = switchPropOf c d p := by
  simp only [setTextVector, findDevice]
  split
  · rfl
  next dev hc =>
    split
    · rfl
    next prop hp =>
      simp only [switchPropOf, findDevice]
      by_cases hd : item.device = d
      · subst hd
        rw [SMap.find_insert_self]
        simp [hc]
      · rw [SMap.find_insert_ne _ _ _ _ hd]

/-- Source `setNumberVector` leaves every switch property unchanged. -/
theorem switchPropOf_setNumberVector (c : Catalog) (item : SetNumberVector) (d p : String) :
    switchPropOf (setNumberVector c item) d p = switchPropOf c d p := by
  simp only [setNumberVector, findDevice]
  split
  · rfl
  next dev hc =>
    split
    · rfl
    next prop hp =>
      simp only [switchPropOf, findDevice]
      by_cases hd : item.device = d
      · subst hd
        rw [SMap.find_insert_self]
        simp [hc]
      · rw [SMap.find_insert_ne _ _ _ _ hd]

/-- Source `setLightVector` leaves every switch property unchanged. -/
theorem switchPropOf_setLightVector (c : Catalog) (item : SetLightVector) (d p : String) :
    switchPropOf (setLightVector c item) d p = switchPropOf c d p := by
  simp only [setLightVector, findDevice]
  split
  · rfl
  next dev hc =>
    split
    · rfl
    next prop hp =>
      simp only [switchPropOf, findDevice]
      by_cases hd : item.device = d
      · subst hd
        rw [SMap.find_insert_self]
        simp [hc]
      · rw [SMap.find_insert_ne _ _ _ _ hd]

/-- Source `setTextVector` leaves every number property unchanged. -/
theorem numberPropOf_setTextVector (c : Catalog) (item : SetTextVector) (d p : String) :
    numberPropOf (setTextVector c item) d p = numberPropOf c d p := by
  simp only [setTextVector, findDevice]
  split
  · rfl
  next dev hc =>
    split
    · rfl
    next prop hp =>
      simp only [numberPropOf, findDevice]
      by_cases hd : item.device = d
      · subst hd
        rw [SMap.find_insert_self]
        simp [hc]
      · rw [SMap.find_insert_ne _ _ _ _ hd]

/-- Source `setSwitchVector` leaves every number property unchanged. -/
theorem numberPropOf_setSwitchVector (c : Catalog) (item : SetSwitchVector) (d p : String) :
    numberPropOf (setSwitchVector c item) d p = numberPropOf c d p := by
  simp only [setSwitchVector, findDevice]
  split
  · rfl
  next dev hc =>
    split
    · rfl
    next prop hp =>
      simp only [numberPropOf, findDevice]
      by_cases hd : item.device = d
      · subst hd
        rw [SMap.find_insert_self]
        simp [hc]
      · rw [SMap.find_insert_ne _ _ _ _ hd]

/-- Source `setLightVector` leaves every number property unchanged. -/
theorem numberPropOf_setLightVector (c : Catalog) (item : SetLightVector) (d p : String) :
    numberPropOf (setLightVector c item) d p = numberPropOf c d p := by
  simp only [setLightVector, findDevice]
  split
  · rfl
  next dev hc =>
    split
    · rfl
    next prop hp =>
      simp only [numberPropOf, findDevice]
      by_cases hd : item.device = d
      · subst hd
        rw [SMap.find_insert_self]
        simp [hc]
      · rw [SMap.find_insert_ne _ _ _ _ hd]

/-- Source `setTextVector` leaves every light property unchanged. -/
theorem lightPropOf_setTextVector (c : Catalog) (item : SetTextVector) (d p : String) :
    lightPropOf (setTextVector c item) d p = lightPropOf c d p := by
  simp only [setTextVector, findDevice]
  split
  · rfl
  next dev hc =>
    split
    · rfl
    next prop hp =>
      simp only [lightPropOf, findDevice]
      by_cases hd : item.device = d
      · subst hd
        rw [SMap.find_insert_self]
        simp [hc]
      · rw [SMap.find_insert_ne _ _ _ _ hd]

/-- Source `setSwitchVector` leaves every light property unchanged. -/
theorem lightPropOf_setSwitchVector (c : Catalog) (item : SetSwitchVector) (d p : String) :
    lightPropOf (setSwitchVector c item) d p = lightPropOf c d p := by
  simp only [setSwitchVector, findDevice]
  split
  · rfl
  next dev hc =>
    split
    · rfl
    next prop hp =>
      simp only [lightPropOf, findDevice]
      by_cases hd : item.device = d
      · subst hd
        rw [SMap.find_insert_self]
        simp [hc]
      · rw [SMap.find_insert_ne _ _ _ _ hd]

/-- Source `setNumberVector` leaves every light property unchanged. -/
theorem lightPropOf_setNumberVector (c : Catalog) (item : SetNumberVector) (d p : String) :
    lightPropOf (setNumberVector c item) d p = lightPropOf c d p := by
  simp only [setNumberVector, findDevice]
  split
  · rfl
  next dev hc =>
    split
    · rfl
    next prop hp =>
      simp only [lightPropOf, findDevice]
      by_cases hd : item.device = d
      · subst hd
        rw [SMap.find_insert_self]
        simp [hc]
      · rw [SMap.find_insert_ne _ _ _ _ hd]

/-- Source `setTextVector` leaves every blob property unchanged. -/
theorem blobPropOf_setTextVector (c : Catalog) (item : SetTextVector) (d p : String) :
    blobPropOf (setTextVector c item) d p = blobPropOf c d p := by
  simp only [setTextVector, findDevice]
  split
  · rfl
  next dev hc =>
    split
    · rfl
    next prop hp =>
      simp only [blobPropOf, findDevice]
      by_cases hd : item.device = d
      · subst hd
        rw [SMap.find_insert_self]
        simp [hc]
      · rw [SMap.find_insert_ne _ _ _ _ hd]

/-- Source `setSwitchVector` leaves every blob property unchanged. -/
theorem blobPropOf_setSwitchVector (c : Catalog) (item : SetSwitchVector) (d p : String) :
    blobPropOf (setSwitchVector c item) d p = blobPropOf c d p := by
  simp only [setSwitchVector, findDevice]
  split
  · rfl
  next dev hc =>
    split
    · rfl
    next prop hp =>
      simp only [blobPropOf, findDevice]
      by_cases hd : item.device = d
      · subst hd
        rw [SMap.find_insert_self]
        simp [hc]
      · rw [SMap.find_insert_ne _ _ _ _ hd]

/-- Source `setNumberVector` leaves every blob property unchanged. -/
theorem blobPropOf_setNumberVector (c : Catalog) (item : SetNumberVector) (d p : String) :
    blobPropOf (setNumberVector c item) d p = blobPropOf c d p := by
  simp only [setNumberVector, findDevice]
  split
  · rfl
  next dev hc =>
    split
    · rfl
    next prop hp =>
      simp only [blobPropOf, findDevice]
      by_cases hd : item.device = d
      · subst hd
        rw [SMap.find_insert_self]
        simp [hc]
      · rw [SMap.find_insert_ne _ _ _ _ hd]

/-- Source `setLightVector` leaves every blob property unchanged. -/
theorem blobPropOf_setLightVector (c : Catalog) (item : SetLightVector) (d p : String) :
    blobPropOf (setLightVector c item) d p = blobPropOf c d p := by
  simp only [setLightVector, findDevice]
  split
  · rfl
  next dev hc =>
    split
    · rfl
    next prop hp =>
      simp only [blobPropOf, findDevice]
      by_cases hd : item.device = d
      · subst hd
        rw [SMap.find_insert_self]
        simp [hc]
      · rw [SMap.find_insert_ne _ _ _ _ hd]

/-- Source `setBlobVector` leaves every text property unchanged. -/
theorem textPropOf_setBlobVector (fs : Fs) (c : Catalog) (item : SetBlobVector) (d p : String) :
    textPropOf (setBlobVector fs c item).2 d p = textPropOf c d p := by
  simp only [setBlobVector, findDevice]
  split
  · rfl
  next dev hc =>
    split
    · rfl
    next prop hp =>
      simp only [textPropOf, findDevice]
      by_cases hd : item.device = d
      · subst hd
        rw [SMap.find_insert_self]
        simp [hc]
      · rw [SMap.find_insert_ne _ _ _ _ hd]

/-- Source `setBlobVector` leaves every switch property unchanged. -/
theorem switchPropOf_setBlobVector (fs : Fs) (c : Catalog) (item : SetBlobVector) (d p : String) :
    switchPropOf (setBlobVector fs c item).2 d p = switchPropOf c d p := by
  simp only [setBlobVector, findDevice]
  split
  · rfl
  next dev hc =>
    split
    · rfl
    next prop hp =>
      simp only [switchPropOf, findDevice]
      by_cases hd : item.device = d
      · subst hd
        rw [SMap.find_insert_self]
        simp [hc]
      · rw [SMap.find_insert_ne _ _ _ _ hd]

/-- Source `setBlobVector` leaves every number property unchanged. -/
theorem numberPropOf_setBlobVector (fs : Fs) (c : Catalog) (item : SetBlobVector) (d p : String) :
    numberPropOf (setBlobVector fs c item).2 d p = numberPropOf c d p := by
  simp only [setBlobVector, findDevice]
  split
  · rfl
  next dev hc =>
    split
    · rfl
    next prop hp =>
      simp only [numberPropOf, findDevice]
      by_cases hd : item.device = d
      · subst hd
        rw [SMap.find_insert_self]
        simp [hc]
      · rw [SMap.find_insert_ne _ _ _ _ hd]

/-- Source `setBlobVector` leaves every light property unchanged. -/
theorem lightPropOf_setBlobVector (fs : Fs) (c : Catalog) (item : SetBlobVector) (d p : String) :
    lightPropOf (setBlobVector fs c item).2 d p = lightPropOf c d p := by
  simp only [setBlobVector, findDevice]
  split
  · rfl
  next dev hc =>
    split
    · rfl
    next prop hp =>
      simp only [lightPropOf, findDevice]
      by_cases hd : item.device = d
      · subst hd
        rw [SMap.find_insert_self]
        simp [hc]
      · rw [SMap.find_insert_ne _ _ _ _ hd]

/-- A device-level `message` leaves every text property unchanged. -/
theorem textPropOf_deviceMessage (c : Catalog) (item : Message) (d p : String) :
    textPropOf (deviceMessage c item) d p = textPropOf c d p := by
  simp only [deviceMessage, findDevice]
  split
  · rfl
  next dev hc =>
    simp only [textPropOf, findDevice]
    by_cases hd : item.device = d
    · subst hd
      rw [SMap.find_insert_self]
      simp [hc]
    · rw [SMap.find_insert_ne _ _ _ _ hd]

/-- A device-level `message` leaves every switch property unchanged. -/
theorem switchPropOf_deviceMessage (c : Catalog) (item : Message) (d p : String) :
    switchPropOf (deviceMessage c item) d p = switchPropOf c d p := by
  simp only [deviceMessage, findDevice]
  split
  · rfl
  next dev hc =>
    simp only [switchPropOf, findDevice]
    by_cases hd : item.device = d
    · subst hd
      rw [SMap.find_insert_self]
      simp [hc]
    · rw [SMap.find_insert_ne _ _ _ _ hd]

/-- A device-level `message` leaves every number property unchanged. -/
theorem numberPropOf_deviceMessage (c : Catalog) (item : Message) (d p : String) :
    numberPropOf (deviceMessage c item) d p = numberPropOf c d p := by
  simp only [deviceMessage, findDevice]
  split
  · rfl
  next dev hc =>
    simp only [numberPropOf, findDevice]
    by_cases hd : item.device = d
    · subst hd
      rw [SMap.find_insert_self]
      simp [hc]
    · rw [SMap.find_insert_ne _ _ _ _ hd]

/-- A device-level `message` leaves every light property unchanged. -/
theorem lightPropOf_deviceMessage (c : Catalog) (item : Message) (d p : String) :
    lightPropOf (deviceMessage c item) d p = lightPropOf c d p := by
  simp only [deviceMessage, findDevice]
  split
  · rfl
  next dev hc =>
    simp only [lightPropOf, findDevice]
    by_cases hd : item.device = d
    · subst hd
      rw [SMap.find_insert_self]
      simp [hc]
    · rw [SMap.find_insert_ne _ _ _ _ hd]

/-- A device-level `message` leaves every blob property unchanged. -/
theorem blobPropOf_deviceMessage (c : Catalog) (item : Message) (d p : String) :
    blobPropOf (deviceMessage c item) d p = blobPropOf c d p := by
  simp only [deviceMessage, findDevice]
  split
  · rfl
  next dev hc =>
    simp only [blobPropOf, findDevice]
    by_cases hd : item.device = d
    · subst hd
      rw [SMap.find_insert_self]
      simp [hc]
    · rw [SMap.find_insert_ne _ _ _ _ hd]

/-- Source `delProperty` only removes text properties: anything still stored was
stored before. -/
theorem textPropOf_delProperty (c : Catalog) (item : DelProperty) (d p : String)
    (prop : TextProperty) (h : textPropOf (delProperty c item) d p = some prop) :
    textPropOf c d p = some prop := by
  simp only [delProperty] at h
  by_cases hdev : item.device.length = 0
  · rw [if_pos hdev] at h
    cases c with
    | nil => simp [textPropOf, findDevice, SMap.find] at h
    | cons hd0 tl =>
      simp only [textPropOf, findDevice] at h ⊢
      rw [SMap.find_erase] at h
      by_cases hk : hd0.1 = d
      · simp [hk] at h
      · rw [if_neg hk] at h
        exact h
  · rw [if_neg hdev] at h
    by_cases hname : item.name.length = 0
    · rw [if_pos hname] at h
      simp only [textPropOf, findDevice] at h ⊢
      rw [SMap.find_erase] at h
      by_cases hk : item.device = d
      · simp [hk] at h
      · rw [if_neg hk] at h
        exact h
    · rw [if_neg hname] at h
      simp only [textPropOf, findDevice, findOrCreateDevice] at h ⊢
      by_cases hk : item.device = d
      · subst hk
        rw [SMap.find_insert_self] at h
        simp only at h
        rw [SMap.find_erase] at h
        by_cases hn : item.name = p
        · simp [hn] at h
        · rw [if_neg hn] at h
          cases hc : SMap.find c item.device with
          | none => rw [hc] at h; simp [SMap.find] at h
          | some dev => rw [hc] at h; exact h
      · rw [SMap.find_insert_ne _ _ _ _ hk] at h
        exact h

/-- Source `delProperty` only removes switch properties: anything still stored was
stored before. -/
theorem switchPropOf_delProperty (c : Catalog) (item : DelProperty) (d p : String)
    (prop : SwitchProperty) (h : switchPropOf (delProperty c item) d p = some prop) :
    switchPropOf c d p = some prop := by
  simp only [delProperty] at h
  by_cases hdev : item.device.length = 0
  · rw [if_pos hdev] at h
    cases c with
    | nil => simp [switchPropOf, findDevice, SMap.find] at h
    | cons hd0 tl =>
      simp only [switchPropOf, findDevice] at h ⊢
      rw [SMap.find_erase] at h
      by_cases hk : hd0.1 = d
      · simp [hk] at h
      · rw [if_neg hk] at h
        exact h
  · rw [if_neg hdev] at h
    by_cases hname : item.name.length = 0
    · rw [if_pos hname] at h
      simp only [switchPropOf, findDevice] at h ⊢
      rw [SMap.find_erase] at h
      by_cases hk : item.device = d
      · simp [hk] at h
      · rw [if_neg hk] at h
        exact h
    · rw [if_neg hname] at h
      simp only [switchPropOf, findDevice, findOrCreateDevice] at h ⊢
      by_cases hk : item.device = d
      · subst hk
        rw [SMap.find_insert_self] at h
        simp only at h
        rw [SMap.find_erase] at h
        by_cases hn : item.name = p
        · simp [hn] at h
        · rw [if_neg hn] at h
          cases hc : SMap.find c item.device with
          | none => rw [hc] at h; simp [SMap.find] at h
          | some dev => rw [hc] at h; exact h
      · rw [SMap.find_insert_ne _ _ _ _ hk] at h
        exact h

/-- Source `delProperty` only removes number properties: anything still stored was
stored before. -/
theorem numberPropOf_delProperty (c : Catalog) (item : DelProperty) (d p : String)
    (prop : NumberProperty) (h : numberPropOf (delProperty c item) d p = some prop) :
    numberPropOf c d p = some prop := by
  simp only [delProperty] at h
  by_cases hdev : item.device.length = 0
  · rw [if_pos hdev] at h
    cases c with
    | nil => simp [numberPropOf, findDevice, SMap.find] at h
    | cons hd0 tl =>
      simp only [numberPropOf, findDevice] at h ⊢
      rw [SMap.find_erase] at h
      by_cases hk : hd0.1 = d
      · simp [hk] at h
      · rw [if_neg hk] at h
        exact h
  · rw [if_neg hdev] at h
    by_cases hname : item.name.length = 0
    · rw [if_pos hname] at h
      simp only [numberPropOf, findDevice] at h ⊢
      rw [SMap.find_erase] at h
      by_cases hk : item.device = d
      · simp [hk] at h
      · rw [if_neg hk] at h
        exact h
    · rw [if_neg hname] at h
      simp only [numberPropOf, findDevice, findOrCreateDevice] at h ⊢
      by_cases hk : item.device = d
      · subst hk
        rw [SMap.find_insert_self] at h
        simp only at h
        rw [SMap.find_erase] at h
        by_cases hn : item.name = p
        · simp [hn] at h
        · rw [if_neg hn] at h
          cases hc : SMap.find c item.device with
          | none => rw [hc] at h; simp [SMap.find] at h
          | some dev => rw [hc] at h; exact h
      · rw [SMap.find_insert_ne _ _ _ _ hk] at h
        exact h

/-- Source `delProperty` only removes light properties: anything still stored was
stored before. -/
theorem lightPropOf_delProperty (c : Catalog) (item : DelProperty) (d p : String)
    (prop : LightProperty) (h : lightPropOf (delProperty c item) d p = some prop) :
    lightPropOf c d p = some prop := by
  simp only [delProperty] at h
  by_cases hdev : item.device.length = 0
  · rw [if_pos hdev] at h
    cases c with
    | nil => simp [lightPropOf, findDevice, SMap.find] at h
    | cons hd0 tl =>
      simp only [lightPropOf, findDevice] at h ⊢
      rw [SMap.find_erase] at h
      by_cases hk : hd0.1 = d
      · simp [hk] at h
      · rw [if_neg hk] at h
        exact h
  · rw [if_neg hdev] at h
    by_cases hname : item.name.length = 0
    · rw [if_pos hname] at h
      simp only [lightPropOf, findDevice] at h ⊢
      rw [SMap.find_erase] at h
      by_cases hk : item.device = d
      · simp [hk] at h
      · rw [if_neg hk] at h
        exact h
    · rw [if_neg hname] at h
      simp only [lightPropOf, findDevice, findOrCreateDevice] at h ⊢
      by_cases hk : item.device = d
      · subst hk
        rw [SMap.find_insert_self] at h
        simp only at h
        rw [SMap.find_erase] at h
        by_cases hn : item.name = p
        · simp [hn] at h
        · rw [if_neg hn] at h
          cases hc : SMap.find c item.device with
          | none => rw [hc] at h; simp [SMap.find] at h
          | some dev => rw [hc] at h; exact h
      · rw [SMap.find_insert_ne _ _ _ _ hk] at h
        exact h

/-- Source `delProperty` only removes blob properties: anything still stored was
stored before. -/
theorem blobPropOf_delProperty (c : Catalog) (item : DelProperty) (d p : String)
    (prop : BlobProperty) (h : blobPropOf (delProperty c item) d p = some prop) :
    blobPropOf c d p = some prop := by
  simp only [delProperty] at h
  by_cases hdev : item.device.length = 0
  · rw [if_pos hdev] at h
    cases c with
    | nil => simp [blobPropOf, findDevice, SMap.find] at h
    | cons hd0 tl =>
      simp only [blobPropOf, findDevice] at h ⊢
      rw [SMap.find_erase] at h
      by_cases hk : hd0.1 = d
      · simp [hk] at h
      · rw [if_neg hk] at h
        exact h
  · rw [if_neg hdev] at h
    by_cases hname : item.name.length = 0
    · rw [if_pos hname] at h
      simp only [blobPropOf, findDevice] at h ⊢
      rw [SMap.find_erase] at h
      by_cases hk : item.device = d
      · simp [hk] at h
      · rw [if_neg hk] at h
        exact h
    · rw [if_neg hname] at h
      simp only [blobPropOf, findDevice, findOrCreateDevice] at h ⊢
      by_cases hk : item.device = d
      · subst hk
        rw [SMap.find_insert_self] at h
        simp only at h
        rw [SMap.find_erase] at h
        by_cases hn : item.name = p
        · simp [hn] at h
        · rw [if_neg hn] at h
          cases hc : SMap.find c item.device with
          | none => rw [hc] at h; simp [SMap.find] at h
          | some dev => rw [hc] at h; exact h
      · rw [SMap.find_insert_ne _ _ _ _ hk] at h
        exact h

/-- Source `setTextVector` never changes which value names a text property holds. -/
theorem textValueMem_setTextVector (c : Catalog) (item : SetTextVector) (d p v : String) :
    textValueMem (setTextVector c item) d p v = textValueMem c d p v := by
  simp only [setTextVector, findDevice]
  split
  · rfl
  next dev hc =>
    split
    · rfl
    next prop hp =>
      simp only [textValueMem, textPropOf, findDevice]
      by_cases hd : item.device = d
      · subst hd
        by_cases hn : item.name = p
        · subst hn
          simp only [SMap.find_insert_self, hc, hp]
          exact find_foldl_setTextStep_isSome item.texts prop.values v
        · simp only [SMap.find_insert_self, SMap.find_insert_ne _ _ _ _ hn, hc]
      · rw [SMap.find_insert_ne _ _ _ _ hd]

/-- Source `setSwitchVector` never changes which value names a switch property holds. -/
theorem switchValueMem_setSwitchVector (c : Catalog) (item : SetSwitchVector) (d p v : String) :
    switchValueMem (setSwitchVector c item) d p v = switchValueMem c d p v := by
  simp only [setSwitchVector, findDevice]
  split
  · rfl
  next dev hc =>
    split
    · rfl
    next prop hp =>
      simp only [switchValueMem, switchPropOf, findDevice]
      by_cases hd : item.device = d
      · subst hd
        by_cases hn : item.name = p
        · subst hn
          simp only [SMap.find_insert_self, hc, hp]
          exact find_foldl_setSwitchStep_isSome item.switches prop.values v
        · simp only [SMap.find_insert_self, SMap.find_insert_ne _ _ _ _ hn, hc]
      · rw [SMap.find_insert_ne _ _ _ _ hd]

/-- Source `setNumberVector` never changes which value names a number property holds. -/
theorem numberValueMem_setNumberVector (c : Catalog) (item : SetNumberVector) (d p v : String) :
    numberValueMem (setNumberVector c item) d p v = numberValueMem c d p v := by
  simp only [setNumberVector, findDevice]
  split
  · rfl
  next dev hc =>
    split
    · rfl
    next prop hp =>
      simp only [numberValueMem, numberPropOf, findDevice]
      by_cases hd : item.device = d
      · subst hd
        by_cases hn : item.name = p
        · subst hn
          simp only [SMap.find_insert_self, hc, hp]
          exact find_foldl_setNumberStep_isSome item.numbers prop.values v
        · simp only [SMap.find_insert_self, SMap.find_insert_ne _ _ _ _ hn, hc]
      · rw [SMap.find_insert_ne _ _ _ _ hd]

/-- Source `setLightVector` never changes which value names a light property holds. -/
theorem lightValueMem_setLightVector (c : Catalog) (item : SetLightVector) (d p v : String) :
    lightValueMem (setLightVector c item) d p v = lightValueMem c d p v := by
  simp only [setLightVector, findDevice]
  split
  · rfl
  next dev hc =>
    split
    · rfl
    next prop hp =>
      simp only [lightValueMem, lightPropOf, findDevice]
      by_cases hd : item.device = d
      · subst hd
        by_cases hn : item.name = p
        · subst hn
          simp only [SMap.find_insert_self, hc, hp]
          exact find_foldl_setLightStep_isSome item.lights prop.values v
        · simp only [SMap.find_insert_self, SMap.find_insert_ne _ _ _ _ hn, hc]
      · rw [SMap.find_insert_ne _ _ _ _ hd]

/-- Source `setBlobVector` never changes which value names a blob property holds. -/
theorem blobValueMem_setBlobVector (fs : Fs) (c : Catalog) (item : SetBlobVector)
    (d p v : String) :
    blobValueMem (setBlobVector fs c item).2 d p v = blobValueMem c d p v := by
  simp only [setBlobVector, findDevice]
  split
  · rfl
  next dev hc =>
    split
    · rfl
    next prop hp =>
      simp only [blobValueMem, blobPropOf, findDevice]
      by_cases hd : item.device = d
      · subst hd
        by_cases hn : item.name = p
        · subst hn
          simp only [SMap.find_insert_self, hc, hp]
          exact find_foldl_setBlobStep_isSome item item.blobs (fs, prop.values) v
        · simp only [SMap.find_insert_self, SMap.find_insert_ne _ _ _ _ hn, hc]
      · rw [SMap.find_insert_ne _ _ _ _ hd]

theorem textValueMem_defSwitchVector (c : Catalog) (item : DefSwitchVector) (d p v : String) :
    textValueMem (defSwitchVector c item) d p v = textValueMem c d p v := by
  simp only [textValueMem, textPropOf_defSwitchVector]

theorem textValueMem_defNumberVector (c : Catalog) (item : DefNumberVector) (d p v : String) :
    textValueMem (defNumberVector c item) d p v = textValueMem c d p v := by
  simp only [textValueMem, textPropOf_defNumberVector]

theorem textValueMem_defLightVector (c : Catalog) (item : DefLightVector) (d p v : String) :
    textValueMem (defLightVector c item) d p v = textValueMem c d p v := by
  simp only [textValueMem, textPropOf_defLightVector]

theorem textValueMem_defBlobVector (c : Catalog) (item : DefBlobVector) (d p v : String) :
    textValueMem (defBlobVector c item) d p v = textValueMem c d p v := by
  simp only [textValueMem, textPropOf_defBlobVector]

theorem textValueMem_setSwitchVector (c : Catalog) (item : SetSwitchVector) (d p v : String) :
    textValueMem (setSwitchVector c item) d p v = textValueMem c d p v := by
  simp only [textValueMem, textPropOf_setSwitchVector]

theorem textValueMem_setNumberVector (c : Catalog) (item : SetNumberVector) (d p v : String) :
    textValueMem (setNumberVector c item) d p v = textValueMem c d p v := by
  simp only [textValueMem, textPropOf_setNumberVector]

theorem textValueMem_setLightVector (c : Catalog) (item : SetLightVector) (d p v : String) :
    textValueMem (setLightVector c item) d p v = textValueMem c d p v := by
  simp only [textValueMem, textPropOf_setLightVector]

theorem textValueMem_setBlobVector (fs : Fs) (c : Catalog) (item : SetBlobVector)
    (d p v : String) :
    textValueMem (setBlobVector fs c item).2 d p v = textValueMem c d p v := by
  simp only [textValueMem, textPropOf_setBlobVector]

theorem textValueMem_deviceMessage (c : Catalog) (item : Message) (d p v : String) :
    textValueMem (deviceMessage c item) d p v = textValueMem c d p v := by
  simp only [textValueMem, textPropOf_deviceMessage]

theorem textValueMem_delProperty (c : Catalog) (item : DelProperty) (d p v : String)
    (h : textValueMem (delProperty c item) d p v = true) : textValueMem c d p v = true := by
  simp only [textValueMem] at h ⊢
  cases hfind : textPropOf (delProperty c item) d p with
  | none => simp [hfind] at h
  | some prop =>
    rw [textPropOf_delProperty c item d p prop hfind]
    simpa [hfind] using h

theorem switchValueMem_defTextVector (c : Catalog) (item : DefTextVector) (d p v : String) :
    switchValueMem (defTextVector c item) d p v = switchValueMem c d p v := by
  simp only [switchValueMem, switchPropOf_defTextVector]

theorem switchValueMem_defNumberVector (c : Catalog) (item : DefNumberVector) (d p v : String) :
    switchValueMem (defNumberVector c item) d p v = switchValueMem c d p v := by
  simp only [switchValueMem, switchPropOf_defNumberVector]

theorem switchValueMem_defLightVector (c : Catalog) (item : DefLightVector) (d p v : String) :
    switchValueMem (defLightVector c item) d p v = switchValueMem c d p v := by
  simp only [switchValueMem, switchPropOf_defLightVector]

theorem switchValueMem_defBlobVector (c : Catalog) (item : DefBlobVector) (d p v : String) :
    switchValueMem (defBlobVector c item) d p v = switchValueMem c d p v := by
  simp only [switchValueMem, switchPropOf_defBlobVector]

theorem switchValueMem_setTextVector (c : Catalog) (item : SetTextVector) (d p v : String) :
    switchValueMem (setTextVector c item) d p v = switchValueMem c d p v := by
  simp only [switchValueMem, switchPropOf_setTextVector]

theorem switchValueMem_setNumberVector (c : Catalog) (item : SetNumberVector) (d p v : String) :
    switchValueMem (setNumberVector c item) d p v = switchValueMem c d p v := by
  simp only [switchValueMem, switchPropOf_setNumberVector]

theorem switchValueMem_setLightVector (c : Catalog) (item : SetLightVector) (d p v : String) :
    switchValueMem (setLightVector c item) d p v = switchValueMem c d p v := by
  simp only [switchValueMem, switchPropOf_setLightVector]

theorem switchValueMem_setBlobVector (fs : Fs) (c : Catalog) (item : SetBlobVector)
    (d p v : String) :
    switchValueMem (setBlobVector fs c item).2 d p v = switchValueMem c d p v := by
  simp only [switchValueMem, switchPropOf_setBlobVector]

theorem switchValueMem_deviceMessage (c : Catalog) (item : Message) (d p v : String) :
    switchValueMem (deviceMessage c item) d p v = switchValueMem c d p v := by
  simp only [switchValueMem, switchPropOf_deviceMessage]

theorem switchValueMem_delProperty (c : Catalog) (item : DelProperty) (d p v : String)
    (h : switchValueMem (delProperty c item) d p v = true) : switchValueMem c d p v = true := by
  simp only [switchValueMem] at h ⊢
  cases hfind : switchPropOf (delProperty c item) d p with
  | none => simp [hfind] at h
  | some prop =>
    rw [switchPropOf_delProperty c item d p prop hfind]
    simpa [hfind] using h

theorem numberValueMem_defTextVector (c : Catalog) (item : DefTextVector) (d p v : String) :
    numberValueMem (defTextVector c item) d p v = numberValueMem c d p v := by
  simp only [numberValueMem, numberPropOf_defTextVector]

theorem numberValueMem_defSwitchVector (c : Catalog) (item : DefSwitchVector) (d p v : String) :
    numberValueMem (defSwitchVector c item) d p v = numberValueMem c d p v := by
  simp only [numberValueMem, numberPropOf_defSwitchVector]

theorem numberValueMem_defLightVector (c : Catalog) (item : DefLightVector) (d p v : String) :
    numberValueMem (defLightVector c item) d p v = numberValueMem c d p v := by
  simp only [numberValueMem, numberPropOf_defLightVector]

theorem numberValueMem_defBlobVector (c : Catalog) (item : DefBlobVector) (d p v : String) :
    numberValueMem (defBlobVector c item) d p v = numberValueMem c d p v := by
  simp only [numberValueMem, numberPropOf_defBlobVector]

theorem numberValueMem_setTextVector (c : Catalog) (item : SetTextVector) (d p v : String) :
    numberValueMem (setTextVector c item) d p v = numberValueMem c d p v := by
  simp only [numberValueMem, numberPropOf_setTextVector]

theorem numberValueMem_setSwitchVector (c : Catalog) (item : SetSwitchVector) (d p v : String) :
    numberValueMem (setSwitchVector c item) d p v = numberValueMem c d p v := by
  simp only [numberValueMem, numberPropOf_setSwitchVector]

theorem numberValueMem_setLightVector (c : Catalog) (item : SetLightVector) (d p v : String) :
    numberValueMem (setLightVector c item) d p v = numberValueMem c d p v := by
  simp only [numberValueMem, numberPropOf_setLightVector]

theorem numberValueMem_setBlobVector (fs : Fs) (c : Catalog) (item : SetBlobVector)
    (d p v : String) :
    numberValueMem (setBlobVector fs c item).2 d p v = numberValueMem c d p v := by
  simp only [numberValueMem, numberPropOf_setBlobVector]

theorem numberValueMem_deviceMessage (c : Catalog) (item : Message) (d p v : String) :
    numberValueMem (deviceMessage c item) d p v = numberValueMem c d p v := by
  simp only [numberValueMem, numberPropOf_deviceMessage]

theorem numberValueMem_delProperty (c : Catalog) (item : DelProperty) (d p v : String)
    (h : numberValueMem (delProperty c item) d p v = true) : numberValueMem c d p v = true := by
  simp only [numberValueMem] at h ⊢
  cases hfind : numberPropOf (delProperty c item) d p with
  | none => simp [hfind] at h
  | some prop =>
    rw [numberPropOf_delProperty c item d p prop hfind]
    simpa [hfind] using h

theorem lightValueMem_defTextVector (c : Catalog) (item : DefTextVector) (d p v : String) :
    lightValueMem (defTextVector c item) d p v = lightValueMem c d p v := by
  simp only [lightValueMem, lightPropOf_defTextVector]

theorem lightValueMem_defSwitchVector (c : Catalog) (item : DefSwitchVector) (d p v : String) :
    lightValueMem (defSwitchVector c item) d p v = lightValueMem c d p v := by
  simp only [lightValueMem, lightPropOf_defSwitchVector]

theorem lightValueMem_defNumberVector (c : Catalog) (item : DefNumberVector) (d p v : String) :
    lightValueMem (defNumberVector c item) d p v = lightValueMem c d p v := by
  simp only [lightValueMem, lightPropOf_defNumberVector]

theorem lightValueMem_defBlobVector (c : Catalog) (item : DefBlobVector) (d p v : String) :
    lightValueMem (defBlobVector c item) d p v = lightValueMem c d p v := by
  simp only [lightValueMem, lightPropOf_defBlobVector]

theorem lightValueMem_setTextVector (c : Catalog) (item : SetTextVector) (d p v : String) :
    lightValueMem (setTextVector c item) d p v = lightValueMem c d p v := by
  simp only [lightValueMem, lightPropOf_setTextVector]

theorem lightValueMem_setSwitchVector (c : Catalog) (item : SetSwitchVector) (d p v : String) :
    lightValueMem (setSwitchVector c item) d p v = lightValueMem c d p v := by
  simp only [lightValueMem, lightPropOf_setSwitchVector]

theorem lightValueMem_setNumberVector (c : Catalog) (item : SetNumberVector) (d p v : String) :
    lightValueMem (setNumberVector c item) d p v = lightValueMem c d p v := by
  simp only [lightValueMem, lightPropOf_setNumberVector]

theorem lightValueMem_setBlobVector (fs : Fs) (c : Catalog) (item : SetBlobVector)
    (d p v : String) :
    lightValueMem (setBlobVector fs c item).2 d p v = lightValueMem c d p v := by
  simp only [lightValueMem, lightPropOf_setBlobVector]

theorem lightValueMem_deviceMessage (c : Catalog) (item : Message) (d p v : String) :
    lightValueMem (deviceMessage c item) d p v = lightValueMem c d p v := by
  simp only [lightValueMem, lightPropOf_deviceMessage]

theorem lightValueMem_delProperty (c : Catalog) (item : DelProperty) (d p v : String)
    (h : lightValueMem (delProperty c item) d p v = true) : lightValueMem c d p v = true := by
  simp only [lightValueMem] at h ⊢
  cases hfind : lightPropOf (delProperty c item) d p with
  | none => simp [hfind] at h
  | some prop =>
    rw [lightPropOf_delProperty c item d p prop hfind]
    simpa [hfind] using h

theorem blobValueMem_defTextVector (c : Catalog) (item : DefTextVector) (d p v : String) :
    blobValueMem (defTextVector c item) d p v = blobValueMem c d p v := by
  simp only [blobValueMem, blobPropOf_defTextVector]

theorem blobValueMem_defSwitchVector (c : Catalog) (item : DefSwitchVector) (d p v : String) :
    blobValueMem (defSwitchVector c item) d p v = blobValueMem c d p v := by
  simp only [blobValueMem, blobPropOf_defSwitchVector]

theorem blobValueMem_defNumberVector (c : Catalog) (item : DefNumberVector) (d p v : String) :
    blobValueMem (defNumberVector c item) d p v = blobValueMem c d p v := by
  simp only [blobValueMem, blobPropOf_defNumberVector]

theorem blobValueMem_defLightVector (c : Catalog) (item : DefLightVector) (d p v : String) :
    blobValueMem (defLightVector c item) d p v = blobValueMem c d p v := by
  simp only [blobValueMem, blobPropOf_defLightVector]

theorem blobValueMem_setTextVector (c : Catalog) (item : SetTextVector) (d p v : String) :
    blobValueMem (setTextVector c item) d p v = blobValueMem c d p v := by
  simp only [blobValueMem, blobPropOf_setTextVector]

theorem blobValueMem_setSwitchVector (c : Catalog) (item : SetSwitchVector) (d p v : String) :
    blobValueMem (setSwitchVector c item) d p v = blobValueMem c d p v := by
  simp only [blobValueMem, blobPropOf_setSwitchVector]

theorem blobValueMem_setNumberVector (c : Catalog) (item : SetNumberVector) (d p v : String) :
    blobValueMem (setNumberVector c item) d p v = blobValueMem c d p v := by
  simp only [blobValueMem, blobPropOf_setNumberVector]

theorem blobValueMem_setLightVector (c : Catalog) (item : SetLightVector) (d p v : String) :
    blobValueMem (setLightVector c item) d p v = blobValueMem c d p v := by
  simp only [blobValueMem, blobPropOf_setLightVector]

theorem blobValueMem_deviceMessage (c : Catalog) (item : Message) (d p v : String) :
    blobValueMem (deviceMessage c item) d p v = blobValueMem c d p v := by
  simp only [blobValueMem, blobPropOf_deviceMessage]

theorem blobValueMem_delProperty (c : Catalog) (item : DelProperty) (d p v : String)
    (h : blobValueMem (delProperty c item) d p v = true) : blobValueMem c d p v = true := by
  simp only [blobValueMem] at h ⊢
  cases hfind : blobPropOf (delProperty c item) d p with
  | none => simp [hfind] at h
  | some prop =>
    rw [blobPropOf_delProperty c item d p prop hfind]
    simpa [hfind] using h

end IndiClient
namespace IndiClient

def lastTextDefStep (d p : String) (acc : Option DefTextVector) (m : IndiMessage) :
    Option DefTextVector :=
  match m with
  | .defText item => if item.device = d ∧ item.name = p then some item else acc
  | _ => acc

def lastTextDef (msgs : List IndiMessage) (d p : String) : Option DefTextVector :=
  msgs.foldl (lastTextDefStep d p) none

theorem textValueMem_run (msgs : List IndiMessage) (d p v : String)
    (h : textValueMem (runMessages msgs ([], [])).2 d p v = true) :
    ∃ item, lastTextDef msgs d p = some item ∧ v ∈ item.texts.map OneText.name := by
  induction msgs using List.reverseRecOn with
  | nil =>
    simp [runMessages, textValueMem, textPropOf, findDevice, SMap.find] at h
  | append_singleton ms m ih =>
    simp only [runMessages, List.foldl_append, List.foldl_cons, List.foldl_nil] at h
    simp only [lastTextDef, List.foldl_append, List.foldl_cons, List.foldl_nil]
    simp only [runMessages] at ih
    simp only [lastTextDef] at ih
    cases m with
    | defText item =>
      simp only [dispatch] at h
      by_cases hm : item.device = d ∧ item.name = p
      · refine ⟨item, by simp [lastTextDefStep, hm], ?_⟩
        have hchar := textPropOf_defTextVector
          (List.foldl dispatch (([], []) : Fs × Catalog) ms).2 item d p
        rw [if_pos hm] at hchar
        simp only [textValueMem, hchar] at h
        rcases (find_foldl_defTextStep_isSome item.texts [] v).mp h with h1 | h2
        · exact h1
        · simp [SMap.find] at h2
      · have hchar := textPropOf_defTextVector
          (List.foldl dispatch (([], []) : Fs × Catalog) ms).2 item d p
        rw [if_neg hm] at hchar
        obtain ⟨it, h1, h2⟩ := ih (by simp only [textValueMem, hchar] at h; exact h)
        exact ⟨it, by simp [lastTextDefStep, hm, h1], h2⟩
    | defSwitch item =>
      simp only [dispatch] at h
      rw [textValueMem_defSwitchVector] at h
      obtain ⟨it, h1, h2⟩ := ih h
      exact ⟨it, by simp [lastTextDefStep, h1], h2⟩
    | defNumber item =>
      simp only [dispatch] at h
      rw [textValueMem_defNumberVector] at h
      obtain ⟨it, h1, h2⟩ := ih h
      exact ⟨it, by simp [lastTextDefStep, h1], h2⟩
    | defLight item =>
      simp only [dispatch] at h
      rw [textValueMem_defLightVector] at h
      obtain ⟨it, h1, h2⟩ := ih h
      exact ⟨it, by simp [lastTextDefStep, h1], h2⟩
    | defBlob item =>
      simp only [dispatch] at h
      rw [textValueMem_defBlobVector] at h
      obtain ⟨it, h1, h2⟩ := ih h
      exact ⟨it, by simp [lastTextDefStep, h1], h2⟩
    | setText item =>
      simp only [dispatch] at h
      rw [textValueMem_setTextVector] at h
      obtain ⟨it, h1, h2⟩ := ih h
      exact ⟨it, by simp [lastTextDefStep, h1], h2⟩
    | setSwitch item =>
      simp only [dispatch] at h
      rw [textValueMem_setSwitchVector] at h
      obtain ⟨it, h1, h2⟩ := ih h
      exact ⟨it, by simp [lastTextDefStep, h1], h2⟩
    | setNumber item =>
      simp only [dispatch] at h
      rw [textValueMem_setNumberVector] at h
      obtain ⟨it, h1, h2⟩ := ih h
      exact ⟨it, by simp [lastTextDefStep, h1], h2⟩
    | setLight item =>
      simp only [dispatch] at h
      rw [textValueMem_setLightVector] at h
      obtain ⟨it, h1, h2⟩ := ih h
      exact ⟨it, by simp [lastTextDefStep, h1], h2⟩
    | setBlob item =>
      simp only [dispatch] at h
      rw [textValueMem_setBlobVector] at h
      obtain ⟨it, h1, h2⟩ := ih h
      exact ⟨it, by simp [lastTextDefStep, h1], h2⟩
    | devMessage item =>
      simp only [dispatch] at h
      rw [textValueMem_deviceMessage] at h
      obtain ⟨it, h1, h2⟩ := ih h
      exact ⟨it, by simp [lastTextDefStep, h1], h2⟩
    | delProp item =>
      simp only [dispatch] at h
      obtain ⟨it, h1, h2⟩ := ih (textValueMem_delProperty _ item d p v h)
      exact ⟨it, by simp [lastTextDefStep, h1], h2⟩

end IndiClient
namespace IndiClient


def lastSwitchDefStep (d p : String) (acc : Option DefSwitchVector) (m : IndiMessage) :
    Option DefSwitchVector :=
  match m with
  | .defSwitch item => if item.device = d ∧ item.name = p then some item else acc
  | _ => acc

def lastSwitchDef (msgs : List IndiMessage) (d p : String) : Option DefSwitchVector :=
  msgs.foldl (lastSwitchDefStep d p) none

theorem switchValueMem_run (msgs : List IndiMessage) (d p v : String)
    (h : switchValueMem (runMessages msgs ([], [])).2 d p v = true) :
    ∃ item, lastSwitchDef msgs d p = some item ∧ v ∈ item.switches.map OneSwitch.name := by
  induction msgs using List.reverseRecOn with
  | nil =>
    simp [runMessages, switchValueMem, switchPropOf, findDevice, SMap.find] at h
  | append_singleton ms m ih =>
    simp only [runMessages, List.foldl_append, List.foldl_cons, List.foldl_nil] at h
    simp only [lastSwitchDef, List.foldl_append, List.foldl_cons, List.foldl_nil]
    simp only [runMessages] at ih
    simp only [lastSwitchDef] at ih
    cases m with
    | defSwitch item =>
      simp only [dispatch] at h
      by_cases hm : item.device = d ∧ item.name = p
      · refine ⟨item, by simp [lastSwitchDefStep, hm], ?_⟩
        have hchar := switchPropOf_defSwitchVector
          (List.foldl dispatch (([], []) : Fs × Catalog) ms).2 item d p
        rw [if_pos hm] at hchar
        simp only [switchValueMem, hchar] at h
        rcases (find_foldl_defSwitchStep_isSome item.switches [] v).mp h with h1 | h2
        · exact h1
        · simp [SMap.find] at h2
      · have hchar := switchPropOf_defSwitchVector
          (List.foldl dispatch (([], []) : Fs × Catalog) ms).2 item d p
        rw [if_neg hm] at hchar
        obtain ⟨it, h1, h2⟩ := ih (by simp only [switchValueMem, hchar] at h; exact h)
        exact ⟨it, by simp [lastSwitchDefStep, hm, h1], h2⟩
    | defText item =>
      simp only [dispatch] at h
      rw [switchValueMem_defTextVector] at h
      obtain ⟨it, h1, h2⟩ := ih h
      exact ⟨it, by simp [lastSwitchDefStep, h1], h2⟩
    | defNumber item =>
      simp only [dispatch] at h
      rw [switchValueMem_defNumberVector] at h
      obtain ⟨it, h1, h2⟩ := ih h
      exact ⟨it, by simp [lastSwitchDefStep, h1], h2⟩
    | defLight item =>
      simp only [dispatch] at h
      rw [switchValueMem_defLightVector] at h
      obtain ⟨it, h1, h2⟩ := ih h
      exact ⟨it, by simp [lastSwitchDefStep, h1], h2⟩
    | defBlob item =>
      simp only [dispatch] at h
      rw [switchValueMem_defBlobVector] at h
      obtain ⟨it, h1, h2⟩ := ih h
      exact ⟨it, by simp [lastSwitchDefStep, h1], h2⟩
    | setText item =>
      simp only [dispatch] at h
      rw [switchValueMem_setTextVector] at h
      obtain ⟨it, h1, h2⟩ := ih h
      exact ⟨it, by simp [lastSwitchDefStep, h1], h2⟩
    | setSwitch item =>
      simp only [dispatch] at h
      rw [switchValueMem_setSwitchVector] at h
      obtain ⟨it, h1, h2⟩ := ih h
      exact ⟨it, by simp [lastSwitchDefStep, h1], h2⟩
    | setNumber item =>
      simp only [dispatch] at h
      rw [switchValueMem_setNumberVector] at h
      obtain ⟨it, h1, h2⟩ := ih h
      exact ⟨it, by simp [lastSwitchDefStep, h1], h2⟩
    | setLight item =>
      simp only [dispatch] at h
      rw [switchValueMem_setLightVector] at h
      obtain ⟨it, h1, h2⟩ := ih h
      exact ⟨it, by simp [lastSwitchDefStep, h1], h2⟩
    | setBlob item =>
      simp only [dispatch] at h
      rw [switchValueMem_setBlobVector] at h
      obtain ⟨it, h1, h2⟩ := ih h
      exact ⟨it, by simp [lastSwitchDefStep, h1], h2⟩
    | devMessage item =>
      simp only [dispatch] at h
      rw [switchValueMem_deviceMessage] at h
      obtain ⟨it, h1, h2⟩ := ih h
      exact ⟨it, by simp [lastSwitchDefStep, h1], h2⟩
    | delProp item =>
      simp only [dispatch] at h
      obtain ⟨it, h1, h2⟩ := ih (switchValueMem_delProperty _ item d p v h)
      exact ⟨it, by simp [lastSwitchDefStep, h1], h2⟩



def lastNumberDefStep (d p : String) (acc : Option DefNumberVector) (m : IndiMessage) :
    Option DefNumberVector :=
  match m with
  | .defNumber item => if item.device = d ∧ item.name = p then some item else acc
  | _ => acc

def lastNumberDef (msgs : List IndiMessage) (d p : String) : Option DefNumberVector :=
  msgs.foldl (lastNumberDefStep d p) none

theorem numberValueMem_run (msgs : List IndiMessage) (d p v : String)
    (h : numberValueMem (runMessages msgs ([], [])).2 d p v = true) :
    ∃ item, lastNumberDef msgs d p = some item ∧ v ∈ item.numbers.map OneNumber.name := by
  induction msgs using List.reverseRecOn with
  | nil =>
    simp [runMessages, numberValueMem, numberPropOf, findDevice, SMap.find] at h
  | append_singleton ms m ih =>
    simp only [runMessages, List.foldl_append, List.foldl_cons, List.foldl_nil] at h
    simp only [lastNumberDef, List.foldl_append, List.foldl_cons, List.foldl_nil]
    simp only [runMessages] at ih
    simp only [lastNumberDef] at ih
    cases m with
    | defNumber item =>
      simp only [dispatch] at h
      by_cases hm : item.device = d ∧ item.name = p
      · refine ⟨item, by simp [lastNumberDefStep, hm], ?_⟩
        have hchar := numberPropOf_defNumberVector
          (List.foldl dispatch (([], []) : Fs × Catalog) ms).2 item d p
        rw [if_pos hm] at hchar
        simp only [numberValueMem, hchar] at h
        rcases (find_foldl_defNumberStep_isSome item.numbers [] v).mp h with h1 | h2
        · exact h1
        · simp [SMap.find] at h2
      · have hchar := numberPropOf_defNumberVector
          (List.foldl dispatch (([], []) : Fs × Catalog) ms).2 item d p
        rw [if_neg hm] at hchar
        obtain ⟨it, h1, h2⟩ := ih (by simp only [numberValueMem, hchar] at h; exact h)
        exact ⟨it, by simp [lastNumberDefStep, hm, h1], h2⟩
    | defSwitch item =>
      simp only [dispatch] at h
      rw [numberValueMem_defSwitchVector] at h
      obtain ⟨it, h1, h2⟩ := ih h
      exact ⟨it, by simp [lastNumberDefStep, h1], h2⟩
    | defText item =>
      simp only [dispatch] at h
      rw [numberValueMem_defTextVector] at h
      obtain ⟨it, h1, h2⟩ := ih h
      exact ⟨it, by simp [lastNumberDefStep, h1], h2⟩
    | defLight item =>
      simp only [dispatch] at h
      rw [numberValueMem_defLightVector] at h
      obtain ⟨it, h1, h2⟩ := ih h
      exact ⟨it, by simp [lastNumberDefStep, h1], h2⟩
    | defBlob item =>
      simp only [dispatch] at h
      rw [numberValueMem_defBlobVector] at h
      obtain ⟨it, h1, h2⟩ := ih h
      exact ⟨it, by simp [lastNumberDefStep, h1], h2⟩
    | setText item =>
      simp only [dispatch] at h
      rw [numberValueMem_setTextVector] at h
      obtain ⟨it, h1, h2⟩ := ih h
      exact ⟨it, by simp [lastNumberDefStep, h1], h2⟩
    | setSwitch item =>
      simp only [dispatch] at h
      rw [numberValueMem_setSwitchVector] at h
      obtain ⟨it, h1, h2⟩ := ih h
      exact ⟨it, by simp [lastNumberDefStep, h1], h2⟩
    | setNumber item =>
      simp only [dispatch] at h
      rw [numberValueMem_setNumberVector] at h
      obtain ⟨it, h1, h2⟩ := ih h
      exact ⟨it, by simp [lastNumberDefStep, h1], h2⟩
    | setLight item =>
      simp only [dispatch] at h
      rw [numberValueMem_setLightVector] at h
      obtain ⟨it, h1, h2⟩ := ih h
      exact ⟨it, by simp [lastNumberDefStep, h1], h2⟩
    | setBlob item =>
      simp only [dispatch] at h
      rw [numberValueMem_setBlobVector] at h
      obtain ⟨it, h1, h2⟩ := ih h
      exact ⟨it, by simp [lastNumberDefStep, h1], h2⟩
    | devMessage item =>
      simp only [dispatch] at h
      rw [numberValueMem_deviceMessage] at h
      obtain ⟨it, h1, h2⟩ := ih h
      exact ⟨it, by simp [lastNumberDefStep, h1], h2⟩
    | delProp item =>
      simp only [dispatch] at h
      obtain ⟨it, h1, h2⟩ := ih (numberValueMem_delProperty _ item d p v h)
      exact ⟨it, by simp [lastNumberDefStep, h1], h2⟩



def lastBlobDefStep (d p : String) (acc : Option DefBlobVector) (m : IndiMessage) :
    Option DefBlobVector :=
  match m with
  | .defBlob item => if item.device = d ∧ item.name = p then some item else acc
  | _ => acc

def lastBlobDef (msgs : List IndiMessage) (d p : String) : Option DefBlobVector :=
  msgs.foldl (lastBlobDefStep d p) none

theorem blobValueMem_run (msgs : List IndiMessage) (d p v : String)
    (h : blobValueMem (runMessages msgs ([], [])).2 d p v = true) :
    ∃ item, lastBlobDef msgs d p = some item ∧ v ∈ item.blobs.map OneBlob.name := by
  induction msgs using List.reverseRecOn with
  | nil =>
    simp [runMessages, blobValueMem, blobPropOf, findDevice, SMap.find] at h
  | append_singleton ms m ih =>
    simp only [runMessages, List.foldl_append, List.foldl_cons, List.foldl_nil] at h
    simp only [lastBlobDef, List.foldl_append, List.foldl_cons, List.foldl_nil]
    simp only [runMessages] at ih
    simp only [lastBlobDef] at ih
    cases m with
    | defBlob item =>
      simp only [dispatch] at h
      by_cases hm : item.device = d ∧ item.name = p
      · refine ⟨item, by simp [lastBlobDefStep, hm], ?_⟩
        have hchar := blobPropOf_defBlobVector
          (List.foldl dispatch (([], []) : Fs × Catalog) ms).2 item d p
        rw [if_pos hm] at hchar
        simp only [blobValueMem, hchar] at h
        rcases (find_foldl_defBlobStep_isSome item.blobs [] v).mp h with h1 | h2
        · exact h1
        · simp [SMap.find] at h2
      · have hchar := blobPropOf_defBlobVector
          (List.foldl dispatch (([], []) : Fs × Catalog) ms).2 item d p
        rw [if_neg hm] at hchar
        obtain ⟨it, h1, h2⟩ := ih (by simp only [blobValueMem, hchar] at h; exact h)
        exact ⟨it, by simp [lastBlobDefStep, hm, h1], h2⟩
    | defSwitch item =>
      simp only [dispatch] at h
      rw [blobValueMem_defSwitchVector] at h
      obtain ⟨it, h1, h2⟩ := ih h
      exact ⟨it, by simp [lastBlobDefStep, h1], h2⟩
    | defNumber item =>
      simp only [dispatch] at h
      rw [blobValueMem_defNumberVector] at h
      obtain ⟨it, h1, h2⟩ := ih h
      exact ⟨it, by simp [lastBlobDefStep, h1], h2⟩
    | defLight item =>
      simp only [dispatch] at h
      rw [blobValueMem_defLightVector] at h
      obtain ⟨it, h1, h2⟩ := ih h
      exact ⟨it, by simp [lastBlobDefStep, h1], h2⟩
    | defText item =>
      simp only [dispatch] at h
      rw [blobValueMem_defTextVector] at h
      obtain ⟨it, h1, h2⟩ := ih h
      exact ⟨it, by simp [lastBlobDefStep, h1], h2⟩
    | setText item =>
      simp only [dispatch] at h
      rw [blobValueMem_setTextVector] at h
      obtain ⟨it, h1, h2⟩ := ih h
      exact ⟨it, by simp [lastBlobDefStep, h1], h2⟩
    | setSwitch item =>
      simp only [dispatch] at h
      rw [blobValueMem_setSwitchVector] at h
      obtain ⟨it, h1, h2⟩ := ih h
      exact ⟨it, by simp [lastBlobDefStep, h1], h2⟩
    | setNumber item =>
      simp only [dispatch] at h
      rw [blobValueMem_setNumberVector] at h
      obtain ⟨it, h1, h2⟩ := ih h
      exact ⟨it, by simp [lastBlobDefStep, h1], h2⟩
    | setLight item =>
      simp only [dispatch] at h
      rw [blobValueMem_setLightVector] at h
      obtain ⟨it, h1, h2⟩ := ih h
      exact ⟨it, by simp [lastBlobDefStep, h1], h2⟩
    | setBlob item =>
      simp only [dispatch] at h
      rw [blobValueMem_setBlobVector] at h
      obtain ⟨it, h1, h2⟩ := ih h
      exact ⟨it, by simp [lastBlobDefStep, h1], h2⟩
    | devMessage item =>
      simp only [dispatch] at h
      rw [blobValueMem_deviceMessage] at h
      obtain ⟨it, h1, h2⟩ := ih h
      exact ⟨it, by simp [lastBlobDefStep, h1], h2⟩
    | delProp item =>
      simp only [dispatch] at h
      obtain ⟨it, h1, h2⟩ := ih (blobValueMem_delProperty _ item d p v h)
      exact ⟨it, by simp [lastBlobDefStep, h1], h2⟩




/-- Go `len(s) == 0` is emptiness of the string. -/
theorem string_eq_empty_of_length_eq_zero {s : String} (h : s.length = 0) : s = "" := by
  cases s with
  | mk l =>
    cases l with
    | nil => rfl
    | cons a t => simp [String.length] at h

def twoDeviceCatalog : Catalog :=
  [("a", { name := "a" }), ("b", { name := "b" })]

/-- Claim C1 (code-bug evidence): on a catalog holding the two devices "a" and
"b", processing a `delProperty` with empty device and property name — the
purge `Disconnect` (and `Connect`) performs — leaves a device behind:
`Devices()` afterwards is `["b"]`, not `[]` as the claim requires.  The
source's purge-all branch returns inside its deletion loop after the first
key. -/
theorem delProperty_purge_all_leaves_a_device :
    devicesList (delProperty twoDeviceCatalog {}) = ["b"] ∧
    devicesList (disconnectCatalogPurge twoDeviceCatalog) = ["b"] := by
  constructor <;> rfl

/-- Claim C10: a `delProperty` whose device name is non-empty and unknown and
whose property name is non-empty inserts a fresh device with that name and
five empty property maps into the catalog. -/
theorem delProperty_creates_device (c : Catalog) (d p : String)
    (hd : d ≠ "") (hp : p ≠ "") (hfind : findDevice c d = none) :
    findDevice (delProperty c { device := d, name := p }) d =
      some { name := d } := by
  have hd' : ¬ d.length = 0 := fun h => hd (string_eq_empty_of_length_eq_zero h)
  have hp' : ¬ p.length = 0 := fun h => hp (string_eq_empty_of_length_eq_zero h)
  simp only [findDevice] at hfind
  simp only [delProperty, if_neg hd', if_neg hp', findOrCreateDevice, findDevice, hfind]
  rw [SMap.find_insert_self]
  rfl

/-- Claim C10 witness: the theorem applied to the empty catalog. -/
theorem delProperty_creates_device_witness :
    ("scope" ≠ "" ∧ "prop" ≠ "" ∧ findDevice ([] : Catalog) "scope" = none) ∧
    findDevice (delProperty [] { device := "scope", name := "prop" }) "scope" =
      some { name := "scope" } :=
  ⟨⟨by decide, by decide, rfl⟩,
    delProperty_creates_device [] "scope" "prop" (by decide) (by decide) rfl⟩

/-- The armed BLOB value used as claim C4's failing input. -/
def armedBlobValue : BlobValue := { name := "frame", value := "imgfile", size := 5 }

/-- A catalog holding one device with one armed BLOB value. -/
def armedBlobCatalog : Catalog :=
  [("cam",
    { name := "cam"
      blobProperties :=
        [("ccd", { name := "ccd", values := [("frame", armedBlobValue)] })] })]

/-- The filesystem holding the armed BLOB's file. -/
def armedBlobFs : Fs := [("imgfile", [1, 2, 3, 4, 5])]

/-- Claim C4 (code-bug evidence): `GetBlob` on an armed value succeeds with
the file contents, basename and length, but the catalog it returns is the
unchanged input catalog: the reset of path and size is applied to a local
copy of the value that is never stored back, so the value stays armed and a
second `GetBlob` on the same arming succeeds instead of failing (the
source's own comment says "This method should only work once per blob"). -/
theorem getBlob_reset_is_lost :
    getBlob armedBlobFs armedBlobCatalog "cam" "ccd" "frame" =
      .ok ([1, 2, 3, 4, 5], "imgfile", 5, armedBlobCatalog) ∧
    blobValueOf armedBlobCatalog "cam" "ccd" "frame" = some armedBlobValue ∧
    blobAvailable armedBlobCatalog "cam" "ccd" "frame" = true := by
  refine ⟨rfl, rfl, rfl⟩

/-- The two definition messages of claim C8's counterexample: the same
property name defined first as text, then as switch, on one device. -/
def crossKindMessages : List IndiMessage :=
  [.defText { device := "d", name := "P", texts := [{ name := "t" }] },
   .defSwitch { device := "d", name := "P", switches := [{ name := "s" }] }]

/-- Claim C8 counterexample: after the two definition messages the property
name "P" is present in BOTH the text and the switch kind maps of device "d",
so the claimed exclusivity across the five kind maps fails on a reachable
catalog. -/
theorem property_name_in_two_kind_maps :
    (textPropOf (runMessages crossKindMessages ([], [])).2 "d" "P").isSome = true ∧
    (switchPropOf (runMessages crossKindMessages ([], [])).2 "d" "P").isSome = true := by
  constructor <;> rfl

/-- Claim C8 amended: a definition message of one kind replaces only its own
kind's entry and leaves the other four kind maps of the device unchanged (so
one property name may live in several kind maps at once). -/
theorem defVector_leaves_other_kind_maps (c : Catalog) (d p : String) :
    (∀ item : DefTextVector,
      switchPropOf (defTextVector c item) d p = switchPropOf c d p ∧
      numberPropOf (defTextVector c item) d p = numberPropOf c d p ∧
      lightPropOf (defTextVector c item) d p = lightPropOf c d p ∧
      blobPropOf (defTextVector c item) d p = blobPropOf c d p) ∧
    (∀ item : DefSwitchVector,
      textPropOf (defSwitchVector c item) d p = textPropOf c d p ∧
      numberPropOf (defSwitchVector c item) d p = numberPropOf c d p ∧
      lightPropOf (defSwitchVector c item) d p = lightPropOf c d p ∧
      blobPropOf (defSwitchVector c item) d p = blobPropOf c d p) ∧
    (∀ item : DefNumberVector,
      textPropOf (defNumberVector c item) d p = textPropOf c d p ∧
      switchPropOf (defNumberVector c item) d p = switchPropOf c d p ∧
      lightPropOf (defNumberVector c item) d p = lightPropOf c d p ∧
      blobPropOf (defNumberVector c item) d p = blobPropOf c d p) ∧
    (∀ item : DefLightVector,
      textPropOf (defLightVector c item) d p = textPropOf c d p ∧
      switchPropOf (defLightVector c item) d p = switchPropOf c d p ∧
      numberPropOf (defLightVector c item) d p = numberPropOf c d p ∧
      blobPropOf (defLightVector c item) d p = blobPropOf c d p) ∧
    (∀ item : DefBlobVector,
      textPropOf (defBlobVector c item) d p = textPropOf c d p ∧
      switchPropOf (defBlobVector c item) d p = switchPropOf c d p ∧
      numberPropOf (defBlobVector c item) d p = numberPropOf c d p ∧
      lightPropOf (defBlobVector c item) d p = lightPropOf c d p) :=
  ⟨fun item => ⟨switchPropOf_defTextVector c item d p, numberPropOf_defTextVector c item d p,
      lightPropOf_defTextVector c item d p, blobPropOf_defTextVector c item d p⟩,
   fun item => ⟨textPropOf_defSwitchVector c item d p, numberPropOf_defSwitchVector c item d p,
      lightPropOf_defSwitchVector c item d p, blobPropOf_defSwitchVector c item d p⟩,
   fun item => ⟨textPropOf_defNumberVector c item d p, switchPropOf_defNumberVector c item d p,
      lightPropOf_defNumberVector c item d p, blobPropOf_defNumberVector c item d p⟩,
   fun item => ⟨textPropOf_defLightVector c item d p, switchPropOf_defLightVector c item d p,
      numberPropOf_defLightVector c item d p, blobPropOf_defLightVector c item d p⟩,
   fun item => ⟨textPropOf_defBlobVector c item d p, switchPropOf_defBlobVector c item d p,
      numberPropOf_defBlobVector c item d p, lightPropOf_defBlobVector c item d p⟩⟩

/-- The message pair that arms a BLOB value whose name is the empty string:
claim C9's counterexample input. -/
def emptyNameBlobMessages : List IndiMessage :=
  [.defBlob { device := "d", name := "p", blobs := [{ name := "" }] },
   .setBlob { device := "d", name := "p", state := "Ok",
              blobs := [{ name := "", value := "QUJD", format := ".x" }] }]

/-- Claim C9 counterexample: in the reachable catalog after
`emptyNameBlobMessages`, the BLOB value stored under the empty value name is
armed in the claim's sense — size 3 > 0 and non-empty local path "d_p_.x" —
yet `BlobAvailable` returns false: the source tests the value's `Name` field,
not its file path. -/
theorem blobAvailable_false_on_armed_value :
    blobValueOf (runMessages emptyNameBlobMessages ([], [])).2 "d" "p" "" =
      some { label := "", name := "", value := "d_p_.x", size := 3 } ∧
    (3 : Int) > 0 ∧ "d_p_.x" ≠ "" ∧
    blobAvailable (runMessages emptyNameBlobMessages ([], [])).2 "d" "p" "" = false := by
  refine ⟨rfl, by decide, by decide, rfl⟩

/-- Claim C9 amended: `BlobAvailable` is a pure read that returns true exactly
when the device, property and value all exist and the stored value has
non-zero size and a non-empty `name` field; the local file path is not
consulted. -/
theorem blobAvailable_iff (c : Catalog) (d p b : String) :
    blobAvailable c d p b = true ↔
      ∃ dev prop val, findDevice c d = some dev ∧
        SMap.find dev.blobProperties p = some prop ∧
        SMap.find prop.values b = some val ∧
        ¬ val.size = 0 ∧ ¬ val.name = "" := by
  simp only [blobAvailable]
  split
  next hdev => simp [hdev]
  next dev hdev =>
    split
    next hprop => simp [hdev, hprop]
    next prop hprop =>
      split
      next hval => simp [hdev, hprop, hval]
      next val hval =>
        split
        next hcond =>
          simp only [Bool.false_eq_true, false_iff]
          rintro ⟨dev', prop', val', h1, h2, h3, h4, h5⟩
          rw [hdev] at h1
          cases h1
          rw [hprop] at h2
          cases h2
          rw [hval] at h3
          cases h3
          rcases hcond with h | h
          · exact h4 h
          · exact h5 h
        next hcond =>
          push_neg at hcond
          simp only [true_iff]
          exact ⟨dev, prop, val, hdev, hprop, hval, hcond.1, hcond.2⟩

/-- Claim C9 amended, instantiated at a concrete catalog. -/
theorem blobAvailable_iff_witness :
    blobAvailable armedBlobCatalog "cam" "ccd" "frame" = true ↔
      ∃ dev prop val, findDevice armedBlobCatalog "cam" = some dev ∧
        SMap.find dev.blobProperties "ccd" = some prop ∧
        SMap.find prop.values "frame" = some val ∧
        ¬ val.size = 0 ∧ ¬ val.name = "" :=
  blobAvailable_iff armedBlobCatalog "cam" "ccd" "frame"


/-- Claim C2: every consumer set-value call (text, number, switch, BLOB
variants) rejects a mismatched name/value length (text/number/switch), an
unknown device, an unknown property, a Busy property, a read-only property,
and an unknown value name with the corresponding error; in each case the
catalog is returned unchanged and no command is enqueued (so the property is
not marked Busy). -/
theorem setValue_rejections :
    (∀ (c : Catalog) (dn pn : String) (ns : List String) (vs : List String),
      ns.length ≠ vs.length →
      setTextValueStart c dn pn ns vs = (c, none, some .lengthMismatch)) ∧
    (∀ (c : Catalog) (dn pn : String) (ns : List String) (vs : List String),
      ns.length = vs.length → findDevice c dn = none →
      setTextValueStart c dn pn ns vs = (c, none, some .deviceNotFound)) ∧
    (∀ (c : Catalog) (dn pn : String) (ns : List String) (vs : List String) dev,
      ns.length = vs.length → findDevice c dn = some dev →
      SMap.find dev.textProperties pn = none →
      setTextValueStart c dn pn ns vs = (c, none, some .propertyNotFound)) ∧
    (∀ (c : Catalog) (dn pn : String) (ns : List String) (vs : List String) dev prop,
      ns.length = vs.length → findDevice c dn = some dev →
      SMap.find dev.textProperties pn = some prop →
      prop.state = PropertyStateBusy →
      setTextValueStart c dn pn ns vs = (c, none, some .propertyStateBusy)) ∧
    (∀ (c : Catalog) (dn pn : String) (ns : List String) (vs : List String) dev prop,
      ns.length = vs.length → findDevice c dn = some dev →
      SMap.find dev.textProperties pn = some prop →
      prop.state ≠ PropertyStateBusy →
      prop.permissions = PropertyPermissionReadOnly →
      setTextValueStart c dn pn ns vs = (c, none, some .propertyReadOnly)) ∧
    (∀ (c : Catalog) (dn pn : String) (ns : List String) (vs : List String) dev prop,
      ns.length = vs.length → findDevice c dn = some dev →
      SMap.find dev.textProperties pn = some prop →
      prop.state ≠ PropertyStateBusy →
      prop.permissions ≠ PropertyPermissionReadOnly →
      (∃ n ∈ ns, SMap.find prop.values n = none) →
      setTextValueStart c dn pn ns vs = (c, none, some .propertyValueNotFound)) ∧
    (∀ (c : Catalog) (dn pn : String) (ns : List String) (vs : List String),
      ns.length ≠ vs.length →
      setNumberValueStart c dn pn ns vs = (c, none, some .lengthMismatch)) ∧
    (∀ (c : Catalog) (dn pn : String) (ns : List String) (vs : List String),
      ns.length = vs.length → findDevice c dn = none →
      setNumberValueStart c dn pn ns vs = (c, none, some .deviceNotFound)) ∧
    (∀ (c : Catalog) (dn pn : String) (ns : List String) (vs : List String) dev,
      ns.length = vs.length → findDevice c dn = some dev →
      SMap.find dev.numberProperties pn = none →
      setNumberValueStart c dn pn ns vs = (c, none, some .propertyNotFound)) ∧
    (∀ (c : Catalog) (dn pn : String) (ns : List String) (vs : List String) dev prop,
      ns.length = vs.length → findDevice c dn = some dev →
      SMap.find dev.numberProperties pn = some prop →
      prop.state = PropertyStateBusy →
      setNumberValueStart c dn pn ns vs = (c, none, some .propertyStateBusy)) ∧
    (∀ (c : Catalog) (dn pn : String) (ns : List String) (vs : List String) dev prop,
      ns.length = vs.length → findDevice c dn = some dev →
      SMap.find dev.numberProperties pn = some prop →
      prop.state ≠ PropertyStateBusy →
      prop.permissions = PropertyPermissionReadOnly →
      setNumberValueStart c dn pn ns vs = (c, none, some .propertyReadOnly)) ∧
    (∀ (c : Catalog) (dn pn : String) (ns : List String) (vs : List String) dev prop,
      ns.length = vs.length → findDevice c dn = some dev →
      SMap.find dev.numberProperties pn = some prop →
      prop.state ≠ PropertyStateBusy →
      prop.permissions ≠ PropertyPermissionReadOnly →
      (∃ n ∈ ns, SMap.find prop.values n = none) →
      setNumberValueStart c dn pn ns vs = (c, none, some .propertyValueNotFound)) ∧
    (∀ (c : Catalog) (dn pn : String) (ns : List String) (vs : List SwitchState),
      ns.length ≠ vs.length →
      setSwitchValueStart c dn pn ns vs = (c, none, some .lengthMismatch)) ∧
    (∀ (c : Catalog) (dn pn : String) (ns : List String) (vs : List SwitchState),
      ns.length = vs.length → findDevice c dn = none →
      setSwitchValueStart c dn pn ns vs = (c, none, some .deviceNotFound)) ∧
    (∀ (c : Catalog) (dn pn : String) (ns : List String) (vs : List SwitchState) dev,
      ns.length = vs.length → findDevice c dn = some dev →
      SMap.find dev.switchProperties pn = none →
      setSwitchValueStart c dn pn ns vs = (c, none, some .propertyNotFound)) ∧
    (∀ (c : Catalog) (dn pn : String) (ns : List String) (vs : List SwitchState) dev prop,
      ns.length = vs.length → findDevice c dn = some dev →
      SMap.find dev.switchProperties pn = some prop →
      prop.state = PropertyStateBusy →
      setSwitchValueStart c dn pn ns vs = (c, none, some .propertyStateBusy)) ∧
    (∀ (c : Catalog) (dn pn : String) (ns : List String) (vs : List SwitchState) dev prop,
      ns.length = vs.length → findDevice c dn = some dev →
      SMap.find dev.switchProperties pn = some prop →
      prop.state ≠ PropertyStateBusy →
      prop.permissions = PropertyPermissionReadOnly →
      setSwitchValueStart c dn pn ns vs = (c, none, some .propertyReadOnly)) ∧
    (∀ (c : Catalog) (dn pn : String) (ns : List String) (vs : List SwitchState) dev prop,
      ns.length = vs.length → findDevice c dn = some dev →
      SMap.find dev.switchProperties pn = some prop →
      prop.state ≠ PropertyStateBusy →
      prop.permissions ≠ PropertyPermissionReadOnly →
      (∃ n ∈ ns, SMap.find prop.values n = none) →
      setSwitchValueStart c dn pn ns vs = (c, none, some .propertyValueNotFound)) ∧
    (∀ (c : Catalog) (dn pn bn bv bf : String) (bs : Int),
      findDevice c dn = none →
      setBlobValueStart c dn pn bn bv bf bs = (c, none, some .deviceNotFound)) ∧
    (∀ (c : Catalog) (dn pn bn bv bf : String) (bs : Int) dev,
      findDevice c dn = some dev →
      SMap.find dev.blobProperties pn = none →
      setBlobValueStart c dn pn bn bv bf bs = (c, none, some .propertyNotFound)) ∧
    (∀ (c : Catalog) (dn pn bn bv bf : String) (bs : Int) dev prop,
      findDevice c dn = some dev →
      SMap.find dev.blobProperties pn = some prop →
      prop.state = PropertyStateBusy →
      setBlobValueStart c dn pn bn bv bf bs = (c, none, some .propertyStateBusy)) ∧
    (∀ (c : Catalog) (dn pn bn bv bf : String) (bs : Int) dev prop,
      findDevice c dn = some dev →
      SMap.find dev.blobProperties pn = some prop →
      prop.state ≠ PropertyStateBusy →
      prop.permissions = PropertyPermissionReadOnly →
      setBlobValueStart c dn pn bn bv bf bs = (c, none, some .propertyReadOnly)) ∧
    (∀ (c : Catalog) (dn pn bn bv bf : String) (bs : Int) dev prop,
      findDevice c dn = some dev →
      SMap.find dev.blobProperties pn = some prop →
      prop.state ≠ PropertyStateBusy →
      prop.permissions ≠ PropertyPermissionReadOnly →
      SMap.find prop.values bn = none →
      setBlobValueStart c dn pn bn bv bf bs = (c, none, some .propertyValueNotFound))  := by
  refine ⟨?_, ?_, ?_, ?_, ?_, ?_, ?_, ?_, ?_, ?_, ?_, ?_, ?_, ?_, ?_, ?_, ?_, ?_, ?_, ?_, ?_, ?_, ?_⟩
  · intro c dn pn ns vs h
    simp only [setTextValueStart, if_pos h]
  · intro c dn pn ns vs hlen hdev
    simp only [setTextValueStart, hdev]
    simp [hlen]
  · intro c dn pn ns vs dev hlen hdev hprop
    simp only [setTextValueStart, hdev, hprop]
    simp [hlen]
  · intro c dn pn ns vs dev prop hlen hdev hprop hstate
    simp only [setTextValueStart, hdev, hprop, if_pos hstate]
    simp [hlen]
  · intro c dn pn ns vs dev prop hlen hdev hprop hstate hperm
    simp only [setTextValueStart, hdev, hprop, if_neg hstate, if_pos hperm]
    simp [hlen]
  · intro c dn pn ns vs dev prop hlen hdev hprop hstate hperm hex
    obtain ⟨n, hn, hfind⟩ := hex
    have hany : (ns.any fun n => (SMap.find prop.values n).isNone) = true :=
      List.any_eq_true.mpr ⟨n, hn, by simp [hfind]⟩
    simp only [setTextValueStart, hdev, hprop, if_neg hstate, if_neg hperm, if_pos hany]
    simp [hlen]
  · intro c dn pn ns vs h
    simp only [setNumberValueStart, if_pos h]
  · intro c dn pn ns vs hlen hdev
    simp only [setNumberValueStart, hdev]
    simp [hlen]
  · intro c dn pn ns vs dev hlen hdev hprop
    simp only [setNumberValueStart, hdev, hprop]
    simp [hlen]
  · intro c dn pn ns vs dev prop hlen hdev hprop hstate
    simp only [setNumberValueStart, hdev, hprop, if_pos hstate]
    simp [hlen]
  · intro c dn pn ns vs dev prop hlen hdev hprop hstate hperm
    simp only [setNumberValueStart, hdev, hprop, if_neg hstate, if_pos hperm]
    simp [hlen]
  · intro c dn pn ns vs dev prop hlen hdev hprop hstate hperm hex
    obtain ⟨n, hn, hfind⟩ := hex
    have hany : (ns.any fun n => (SMap.find prop.values n).isNone) = true :=
      List.any_eq_true.mpr ⟨n, hn, by simp [hfind]⟩
    simp only [setNumberValueStart, hdev, hprop, if_neg hstate, if_neg hperm, if_pos hany]
    simp [hlen]
  · intro c dn pn ns vs h
    simp only [setSwitchValueStart, if_pos h]
  · intro c dn pn ns vs hlen hdev
    simp only [setSwitchValueStart, hdev]
    simp [hlen]
  · intro c dn pn ns vs dev hlen hdev hprop
    simp only [setSwitchValueStart, hdev, hprop]
    simp [hlen]
  · intro c dn pn ns vs dev prop hlen hdev hprop hstate
    simp only [setSwitchValueStart, hdev, hprop, if_pos hstate]
    simp [hlen]
  · intro c dn pn ns vs dev prop hlen hdev hprop hstate hperm
    simp only [setSwitchValueStart, hdev, hprop, if_neg hstate, if_pos hperm]
    simp [hlen]
  · intro c dn pn ns vs dev prop hlen hdev hprop hstate hperm hex
    obtain ⟨n, hn, hfind⟩ := hex
    have hany : (ns.any fun n => (SMap.find prop.values n).isNone) = true :=
      List.any_eq_true.mpr ⟨n, hn, by simp [hfind]⟩
    simp only [setSwitchValueStart, hdev, hprop, if_neg hstate, if_neg hperm, if_pos hany]
    simp [hlen]
  · intro c dn pn bn bv bf bs hdev
    simp only [setBlobValueStart, hdev]
  · intro c dn pn bn bv bf bs dev hdev hprop
    simp only [setBlobValueStart, hdev, hprop]
  · intro c dn pn bn bv bf bs dev prop hdev hprop hstate
    simp only [setBlobValueStart, hdev, hprop, if_pos hstate]
  · intro c dn pn bn bv bf bs dev prop hdev hprop hstate hperm
    simp only [setBlobValueStart, hdev, hprop, if_neg hstate, if_pos hperm]
  · intro c dn pn bn bv bf bs dev prop hdev hprop hstate hperm hfind
    have hnone : (SMap.find prop.values bn).isNone = true := by simp [hfind]
    simp only [setBlobValueStart, hdev, hprop, if_neg hstate, if_neg hperm, if_pos hnone]

/-- An idle read-write text property with a single value "tv". -/
def tpIdle : TextProperty :=
  { name := "tp", permissions := "rw", state := "Idle", values := [("tv", { name := "tv" })] }

/-- A busy text property. -/
def tpBusy : TextProperty := { name := "tbusy", state := "Busy" }

/-- A read-only text property. -/
def tpRO : TextProperty := { name := "tro", permissions := "ro", state := "Idle" }

/-- An idle read-write number property with a single value "nv". -/
def npIdle : NumberProperty :=
  { name := "np", permissions := "rw", state := "Idle", values := [("nv", { name := "nv" })] }

/-- A busy number property. -/
def npBusy : NumberProperty := { name := "nbusy", state := "Busy" }

/-- A read-only number property. -/
def npRO : NumberProperty := { name := "nro", permissions := "ro", state := "Idle" }

/-- An idle read-write switch property with a single value "sv". -/
def spIdle : SwitchProperty :=
  { name := "sp", permissions := "rw", state := "Idle", values := [("sv", { name := "sv" })] }

/-- A busy switch property. -/
def spBusy : SwitchProperty := { name := "sbusy", state := "Busy" }

/-- A read-only switch property. -/
def spRO : SwitchProperty := { name := "sro", permissions := "ro", state := "Idle" }

/-- An idle read-write BLOB property with a single value "bv". -/
def bpIdle : BlobProperty :=
  { name := "bp", permissions := "rw", state := "Idle", values := [("bv", { name := "bv" })] }

/-- A busy BLOB property. -/
def bpBusy : BlobProperty := { name := "bbusy", state := "Busy" }

/-- A read-only BLOB property. -/
def bpRO : BlobProperty := { name := "bro", permissions := "ro", state := "Idle" }

/-- The device carrying the twelve probe properties. -/
def rejectionsDevice : Device :=
  { name := "dev"
    textProperties := [("tp", tpIdle), ("tbusy", tpBusy), ("tro", tpRO)]
    numberProperties := [("np", npIdle), ("nbusy", npBusy), ("nro", npRO)]
    switchProperties := [("sp", spIdle), ("sbusy", spBusy), ("sro", spRO)]
    blobProperties := [("bp", bpIdle), ("bbusy", bpBusy), ("bro", bpRO)] }

/-- The one-device catalog used to witness claim C2. -/
def rejectionsCatalog : Catalog := [("dev", rejectionsDevice)]

/-- Claim C2 witness: every rejection case of the theorem, instantiated on
the concrete probe catalog. -/
theorem setValue_rejections_witness :
    setTextValueStart rejectionsCatalog "dev" "tp" ["a"] [] =
      (rejectionsCatalog, none, some .lengthMismatch) ∧
    setTextValueStart rejectionsCatalog "ghost" "tp" [] [] =
      (rejectionsCatalog, none, some .deviceNotFound) ∧
    setTextValueStart rejectionsCatalog "dev" "ghost" [] [] =
      (rejectionsCatalog, none, some .propertyNotFound) ∧
    setTextValueStart rejectionsCatalog "dev" "tbusy" [] [] =
      (rejectionsCatalog, none, some .propertyStateBusy) ∧
    setTextValueStart rejectionsCatalog "dev" "tro" [] [] =
      (rejectionsCatalog, none, some .propertyReadOnly) ∧
    setTextValueStart rejectionsCatalog "dev" "tp" ["zz"] ["x"] =
      (rejectionsCatalog, none, some .propertyValueNotFound) ∧
    setNumberValueStart rejectionsCatalog "dev" "np" ["a"] [] =
      (rejectionsCatalog, none, some .lengthMismatch) ∧
    setNumberValueStart rejectionsCatalog "ghost" "np" [] [] =
      (rejectionsCatalog, none, some .deviceNotFound) ∧
    setNumberValueStart rejectionsCatalog "dev" "ghost" [] [] =
      (rejectionsCatalog, none, some .propertyNotFound) ∧
    setNumberValueStart rejectionsCatalog "dev" "nbusy" [] [] =
      (rejectionsCatalog, none, some .propertyStateBusy) ∧
    setNumberValueStart rejectionsCatalog "dev" "nro" [] [] =
      (rejectionsCatalog, none, some .propertyReadOnly) ∧
    setNumberValueStart rejectionsCatalog "dev" "np" ["zz"] ["x"] =
      (rejectionsCatalog, none, some .propertyValueNotFound) ∧
    setSwitchValueStart rejectionsCatalog "dev" "sp" ["a"] [] =
      (rejectionsCatalog, none, some .lengthMismatch) ∧
    setSwitchValueStart rejectionsCatalog "ghost" "sp" [] [] =
      (rejectionsCatalog, none, some .deviceNotFound) ∧
    setSwitchValueStart rejectionsCatalog "dev" "ghost" [] [] =
      (rejectionsCatalog, none, some .propertyNotFound) ∧
    setSwitchValueStart rejectionsCatalog "dev" "sbusy" [] [] =
      (rejectionsCatalog, none, some .propertyStateBusy) ∧
    setSwitchValueStart rejectionsCatalog "dev" "sro" [] [] =
      (rejectionsCatalog, none, some .propertyReadOnly) ∧
    setSwitchValueStart rejectionsCatalog "dev" "sp" ["zz"] ["x"] =
      (rejectionsCatalog, none, some .propertyValueNotFound) ∧
    setBlobValueStart rejectionsCatalog "ghost" "bp" "bv" "" "" 0 =
      (rejectionsCatalog, none, some .deviceNotFound) ∧
    setBlobValueStart rejectionsCatalog "dev" "ghost" "bv" "" "" 0 =
      (rejectionsCatalog, none, some .propertyNotFound) ∧
    setBlobValueStart rejectionsCatalog "dev" "bbusy" "bv" "" "" 0 =
      (rejectionsCatalog, none, some .propertyStateBusy) ∧
    setBlobValueStart rejectionsCatalog "dev" "bro" "bv" "" "" 0 =
      (rejectionsCatalog, none, some .propertyReadOnly) ∧
    setBlobValueStart rejectionsCatalog "dev" "bp" "zz" "" "" 0 =
      (rejectionsCatalog, none, some .propertyValueNotFound) := by
  obtain ⟨h01, h02, h03, h04, h05, h06, h11, h12, h13, h14, h15, h16, h21, h22, h23, h24, h25, h26, hb1, hb2, hb3, hb4, hb5⟩ := setValue_rejections
  exact ⟨h01 rejectionsCatalog "dev" "tp" ["a"] [] (by decide),
    h02 rejectionsCatalog "ghost" "tp" [] [] rfl (by decide),
    h03 rejectionsCatalog "dev" "ghost" [] [] rejectionsDevice rfl rfl rfl,
    h04 rejectionsCatalog "dev" "tbusy" [] [] rejectionsDevice tpBusy rfl rfl rfl rfl,
    h05 rejectionsCatalog "dev" "tro" [] [] rejectionsDevice tpRO rfl rfl rfl (by decide) rfl,
    h06 rejectionsCatalog "dev" "tp" ["zz"] ["x"] rejectionsDevice tpIdle rfl rfl rfl
      (by decide) (by decide) ⟨"zz", by decide, by decide⟩, 
    h11 rejectionsCatalog "dev" "np" ["a"] [] (by decide),
    h12 rejectionsCatalog "ghost" "np" [] [] rfl (by decide),
    h13 rejectionsCatalog "dev" "ghost" [] [] rejectionsDevice rfl rfl rfl,
    h14 rejectionsCatalog "dev" "nbusy" [] [] rejectionsDevice npBusy rfl rfl rfl rfl,
    h15 rejectionsCatalog "dev" "nro" [] [] rejectionsDevice npRO rfl rfl rfl (by decide) rfl,
    h16 rejectionsCatalog "dev" "np" ["zz"] ["x"] rejectionsDevice npIdle rfl rfl rfl
      (by decide) (by decide) ⟨"zz", by decide, by decide⟩, 
    h21 rejectionsCatalog "dev" "sp" ["a"] [] (by decide),
    h22 rejectionsCatalog "ghost" "sp" [] [] rfl (by decide),
    h23 rejectionsCatalog "dev" "ghost" [] [] rejectionsDevice rfl rfl rfl,
    h24 rejectionsCatalog "dev" "sbusy" [] [] rejectionsDevice spBusy rfl rfl rfl rfl,
    h25 rejectionsCatalog "dev" "sro" [] [] rejectionsDevice spRO rfl rfl rfl (by decide) rfl,
    h26 rejectionsCatalog "dev" "sp" ["zz"] ["x"] rejectionsDevice spIdle rfl rfl rfl
      (by decide) (by decide) ⟨"zz", by decide, by decide⟩, 
    hb1 rejectionsCatalog "ghost" "bp" "bv" "" "" 0 (by decide),
    hb2 rejectionsCatalog "dev" "ghost" "bv" "" "" 0 rejectionsDevice rfl rfl,
    hb3 rejectionsCatalog "dev" "bbusy" "bv" "" "" 0 rejectionsDevice bpBusy rfl rfl rfl,
    hb4 rejectionsCatalog "dev" "bro" "bv" "" "" 0 rejectionsDevice bpRO rfl rfl (by decide) rfl,
    hb5 rejectionsCatalog "dev" "bp" "zz" "" "" 0 rejectionsDevice bpIdle rfl rfl (by decide)
      (by decide) (by decide)⟩

/-- Claim C3: an accepted consumer set-value call (all validations pass, for
each of the four variants) stores the property back marked Busy in the local
catalog, enqueues exactly the corresponding new-vector command, and returns
no synchronous error; its polling phase, scanning the states it observes,
returns success only at an `Ok` observation, failure
(`Unable to set ... property`) only at an `Alert` observation, and is still
waiting after any sequence of `Idle`/`Busy` observations. -/
theorem setValue_accept_busy_and_blocking :
    (∀ (c : Catalog) (dn pn : String) (ns : List String) (vs : List String) dev prop,
      ns.length = vs.length →
      findDevice c dn = some dev →
      SMap.find dev.textProperties pn = some prop →
      prop.state ≠ PropertyStateBusy →
      prop.permissions ≠ PropertyPermissionReadOnly →
      (∀ n ∈ ns, (SMap.find prop.values n).isSome = true) →
      setTextValueStart c dn pn ns vs =
        (SMap.insert c dn
          { dev with textProperties :=
              SMap.insert dev.textProperties pn { prop with state := PropertyStateBusy } },
         some { device := dn, name := pn,
                texts := (ns.zip vs).map (fun nv => { name := nv.1, value := nv.2 }) },
         none) ∧
      observedTextState (setTextValueStart c dn pn ns vs).1 dn pn = PropertyStateBusy) ∧
    (∀ (c : Catalog) (dn pn : String) (ns : List String) (vs : List String) dev prop,
      ns.length = vs.length →
      findDevice c dn = some dev →
      SMap.find dev.numberProperties pn = some prop →
      prop.state ≠ PropertyStateBusy →
      prop.permissions ≠ PropertyPermissionReadOnly →
      (∀ n ∈ ns, (SMap.find prop.values n).isSome = true) →
      setNumberValueStart c dn pn ns vs =
        (SMap.insert c dn
          { dev with numberProperties :=
              SMap.insert dev.numberProperties pn { prop with state := PropertyStateBusy } },
         some { device := dn, name := pn,
                numbers := (ns.zip vs).map (fun nv => { name := nv.1, value := nv.2 }) },
         none) ∧
      observedNumberState (setNumberValueStart c dn pn ns vs).1 dn pn = PropertyStateBusy) ∧
    (∀ (c : Catalog) (dn pn : String) (ns : List String) (vs : List SwitchState) dev prop,
      ns.length = vs.length →
      findDevice c dn = some dev →
      SMap.find dev.switchProperties pn = some prop →
      prop.state ≠ PropertyStateBusy →
      prop.permissions ≠ PropertyPermissionReadOnly →
      (∀ n ∈ ns, (SMap.find prop.values n).isSome = true) →
      setSwitchValueStart c dn pn ns vs =
        (SMap.insert c dn
          { dev with switchProperties :=
              SMap.insert dev.switchProperties pn { prop with state := PropertyStateBusy } },
         some { device := dn, name := pn,
                switches := (ns.zip vs).map (fun nv => { name := nv.1, value := nv.2 }) },
         none) ∧
      observedSwitchState (setSwitchValueStart c dn pn ns vs).1 dn pn = PropertyStateBusy) ∧
    (∀ (c : Catalog) (dn pn bn bv bf : String) (bs : Int) dev prop,
      findDevice c dn = some dev →
      SMap.find dev.blobProperties pn = some prop →
      prop.state ≠ PropertyStateBusy →
      prop.permissions ≠ PropertyPermissionReadOnly →
      (SMap.find prop.values bn).isSome = true →
      setBlobValueStart c dn pn bn bv bf bs =
        (SMap.insert c dn
          { dev with blobProperties :=
              SMap.insert dev.blobProperties pn { prop with state := PropertyStateBusy } },
         some { device := dn, name := pn,
                blobs := [{ name := bn, value := bv, size := bs, format := bf }] },
         none) ∧
      observedBlobState (setBlobValueStart c dn pn bn bv bf bs).1 dn pn = PropertyStateBusy) ∧
    (∀ (pn : String) (obs : List PropertyState),
      (∀ s ∈ obs, s = PropertyStateIdle ∨ s = PropertyStateBusy) →
      awaitPropertyResolution pn obs = none) ∧
    (∀ (pn : String) (pre rest : List PropertyState),
      (∀ s ∈ pre, s ≠ PropertyStateOk ∧ s ≠ PropertyStateAlert) →
      awaitPropertyResolution pn (pre ++ PropertyStateOk :: rest) = some (.ok ()) ∧
      awaitPropertyResolution pn (pre ++ PropertyStateAlert :: rest) =
        some (.error (.setFailed pn))) := by
  refine ⟨?_, ?_, ?_, ?_, ?_, ?_⟩
  · intro c dn pn ns vs dev prop hlen hdev hprop hstate hperm hvals
    have hany : (ns.any fun n => (SMap.find prop.values n).isNone) = false := by
      cases h : ns.any fun n => (SMap.find prop.values n).isNone with
      | false => rfl
      | true =>
        obtain ⟨n, hn, hv⟩ := List.any_eq_true.mp h
        have hs := hvals n hn
        rw [Option.isNone_iff_eq_none] at hv
        rw [hv] at hs
        simp at hs
    have heq : setTextValueStart c dn pn ns vs =
        (SMap.insert c dn
          { dev with textProperties :=
              SMap.insert dev.textProperties pn { prop with state := PropertyStateBusy } },
         some { device := dn, name := pn,
                texts := (ns.zip vs).map (fun nv => { name := nv.1, value := nv.2 }) },
         none) := by
      simp only [setTextValueStart, hdev, hprop, if_neg hstate, if_neg hperm]
      simp [hlen, hany]
    refine ⟨heq, ?_⟩
    rw [heq]
    simp [observedTextState, findDevice, SMap.find_insert_self]
  · intro c dn pn ns vs dev prop hlen hdev hprop hstate hperm hvals
    have hany : (ns.any fun n => (SMap.find prop.values n).isNone) = false := by
      cases h : ns.any fun n => (SMap.find prop.values n).isNone with
      | false => rfl
      | true =>
        obtain ⟨n, hn, hv⟩ := List.any_eq_true.mp h
        have hs := hvals n hn
        rw [Option.isNone_iff_eq_none] at hv
        rw [hv] at hs
        simp at hs
    have heq : setNumberValueStart c dn pn ns vs =
        (SMap.insert c dn
          { dev with numberProperties :=
              SMap.insert dev.numberProperties pn { prop with state := PropertyStateBusy } },
         some { device := dn, name := pn,
                numbers := (ns.zip vs).map (fun nv => { name := nv.1, value := nv.2 }) },
         none) := by
      simp only [setNumberValueStart, hdev, hprop, if_neg hstate, if_neg hperm]
      simp [hlen, hany]
    refine ⟨heq, ?_⟩
    rw [heq]
    simp [observedNumberState, findDevice, SMap.find_insert_self]
  · intro c dn pn ns vs dev prop hlen hdev hprop hstate hperm hvals
    have hany : (ns.any fun n => (SMap.find prop.values n).isNone) = false := by
      cases h : ns.any fun n => (SMap.find prop.values n).isNone with
      | false => rfl
      | true =>
        obtain ⟨n, hn, hv⟩ := List.any_eq_true.mp h
        have hs := hvals n hn
        rw [Option.isNone_iff_eq_none] at hv
        rw [hv] at hs
        simp at hs
    have heq : setSwitchValueStart c dn pn ns vs =
        (SMap.insert c dn
          { dev with switchProperties :=
              SMap.insert dev.switchProperties pn { prop with state := PropertyStateBusy } },
         some { device := dn, name := pn,
                switches := (ns.zip vs).map (fun nv => { name := nv.1, value := nv.2 }) },
         none) := by
      simp only [setSwitchValueStart, hdev, hprop, if_neg hstate, if_neg hperm]
      simp [hlen, hany]
    refine ⟨heq, ?_⟩
    rw [heq]
    simp [observedSwitchState, findDevice, SMap.find_insert_self]
  · intro c dn pn bn bv bf bs dev prop hdev hprop hstate hperm hval
    have hnone : (SMap.find prop.values bn).isNone = false := by
      cases hf : SMap.find prop.values bn with
      | none => rw [hf] at hval; simp at hval
      | some x => rfl
    have heq : setBlobValueStart c dn pn bn bv bf bs =
        (SMap.insert c dn
          { dev with blobProperties :=
              SMap.insert dev.blobProperties pn { prop with state := PropertyStateBusy } },
         some { device := dn, name := pn,
                blobs := [{ name := bn, value := bv, size := bs, format := bf }] },
         none) := by
      simp only [setBlobValueStart, hdev, hprop, if_neg hstate, if_neg hperm]
      simp [hnone]
    refine ⟨heq, ?_⟩
    rw [heq]
    simp [observedBlobState, findDevice, SMap.find_insert_self]
  · intro pn obs h
    induction obs with
    | nil => rfl
    | cons s rest ih =>
      have hs := h s (List.mem_cons_self _ _)
      have hrest := ih (fun s' hs' => h s' (List.mem_cons_of_mem _ hs'))
      rcases hs with h1 | h1 <;>
        simp [awaitPropertyResolution, h1, PropertyStateIdle, PropertyStateBusy,
          PropertyStateOk, PropertyStateAlert, hrest]
  · intro pn pre rest h
    induction pre with
    | nil =>
      constructor <;> simp [awaitPropertyResolution, PropertyStateOk, PropertyStateAlert]
    | cons s pre' ih =>
      obtain ⟨hok, halert⟩ := h s (List.mem_cons_self _ _)
      have hrest := ih (fun s' hs' => h s' (List.mem_cons_of_mem _ hs'))
      simp only [List.cons_append, awaitPropertyResolution, if_neg hok, if_neg halert]
      exact hrest

/-- Claim C3 witness: each accept conjunct and both polling conjuncts of the
theorem, instantiated on the probe catalog. -/
theorem setValue_accept_busy_and_blocking_witness :
    (setTextValueStart rejectionsCatalog "dev" "tp" ["tv"] ["hello"] =
      (SMap.insert rejectionsCatalog "dev"
        { rejectionsDevice with
            textProperties := SMap.insert rejectionsDevice.textProperties "tp"
              { tpIdle with state := PropertyStateBusy } },
       some { device := "dev", name := "tp",
              texts := ((["tv"].zip ["hello"]).map (fun nv => { name := nv.1, value := nv.2 })) },
       none) ∧
     observedTextState (setTextValueStart rejectionsCatalog "dev" "tp" ["tv"] ["hello"]).1
       "dev" "tp" = PropertyStateBusy) ∧
    (setNumberValueStart rejectionsCatalog "dev" "np" ["nv"] ["42"] =
      (SMap.insert rejectionsCatalog "dev"
        { rejectionsDevice with
            numberProperties := SMap.insert rejectionsDevice.numberProperties "np"
              { npIdle with state := PropertyStateBusy } },
       some { device := "dev", name := "np",
              numbers := ((["nv"].zip ["42"]).map (fun nv => { name := nv.1, value := nv.2 })) },
       none) ∧
     observedNumberState (setNumberValueStart rejectionsCatalog "dev" "np" ["nv"] ["42"]).1
       "dev" "np" = PropertyStateBusy) ∧
    (setSwitchValueStart rejectionsCatalog "dev" "sp" ["sv"] ["On"] =
      (SMap.insert rejectionsCatalog "dev"
        { rejectionsDevice with
            switchProperties := SMap.insert rejectionsDevice.switchProperties "sp"
              { spIdle with state := PropertyStateBusy } },
       some { device := "dev", name := "sp",
              switches := ((["sv"].zip (["On"] : List SwitchState)).map
                (fun nv => { name := nv.1, value := nv.2 })) },
       none) ∧
     observedSwitchState (setSwitchValueStart rejectionsCatalog "dev" "sp" ["sv"] ["On"]).1
       "dev" "sp" = PropertyStateBusy) ∧
    (setBlobValueStart rejectionsCatalog "dev" "bp" "bv" "xx" ".z" 7 =
      (SMap.insert rejectionsCatalog "dev"
        { rejectionsDevice with
            blobProperties := SMap.insert rejectionsDevice.blobProperties "bp"
              { bpIdle with state := PropertyStateBusy } },
       some { device := "dev", name := "bp",
              blobs := [{ name := "bv", value := "xx", size := 7, format := ".z" }] },
       none) ∧
     observedBlobState (setBlobValueStart rejectionsCatalog "dev" "bp" "bv" "xx" ".z" 7).1
       "dev" "bp" = PropertyStateBusy) ∧
    awaitPropertyResolution "tp" [PropertyStateIdle, PropertyStateBusy] = none ∧
    (awaitPropertyResolution "tp" ([PropertyStateBusy] ++ PropertyStateOk :: []) =
       some (.ok ()) ∧
     awaitPropertyResolution "tp" ([PropertyStateBusy] ++ PropertyStateAlert :: []) =
       some (.error (.setFailed "tp"))) := by
  obtain ⟨ht, hn, hs, hb, hw1, hw2⟩ := setValue_accept_busy_and_blocking
  exact ⟨ht rejectionsCatalog "dev" "tp" ["tv"] ["hello"] rejectionsDevice tpIdle rfl rfl rfl
      (by decide) (by decide) (by decide),
    hn rejectionsCatalog "dev" "np" ["nv"] ["42"] rejectionsDevice npIdle rfl rfl rfl
      (by decide) (by decide) (by decide),
    hs rejectionsCatalog "dev" "sp" ["sv"] ["On"] rejectionsDevice spIdle rfl rfl rfl
      (by decide) (by decide) (by decide),
    hb rejectionsCatalog "dev" "bp" "bv" "xx" ".z" 7 rejectionsDevice bpIdle rfl rfl
      (by decide) (by decide) (by decide),
    hw1 "tp" [PropertyStateIdle, PropertyStateBusy] (by decide),
    hw2 "tp" [PropertyStateBusy] [] (by decide)⟩


/-- Claim C5: processing a `setBLOBVector` carrying one `oneBLOB` for an
existing device, property and value name, whose trimmed content decodes from
base64, writes exactly the decoded bytes to the file named
`<device>_<property>_<value><format>` — opened for truncating write, so the
file holds exactly those bytes afterwards — and on success arms the stored
BLOB value with that filename as its path and the decoded byte count as its
size. -/
theorem setBlobVector_writes_and_arms (fs : Fs) (c : Catalog) (item : SetBlobVector)
    (b : OneBlob) (dev : Device) (prop : BlobProperty) (v : BlobValue) (bytes : List Nat)
    (hb : item.blobs = [b])
    (hdev : findDevice c item.device = some dev)
    (hprop : SMap.find dev.blobProperties item.name = some prop)
    (hv : SMap.find prop.values b.name = some v)
    (hdec : base64Decode (trimSpace b.value) = some bytes) :
    (setBlobVector fs c item).1 =
      SMap.insert fs (item.device ++ "_" ++ item.name ++ "_" ++ b.name ++ b.format) bytes ∧
    SMap.find (setBlobVector fs c item).1
      (item.device ++ "_" ++ item.name ++ "_" ++ b.name ++ b.format) = some bytes ∧
    blobValueOf (setBlobVector fs c item).2 item.device item.name b.name =
      some { v with
               value := item.device ++ "_" ++ item.name ++ "_" ++ b.name ++ b.format,
               size := (bytes.length : Int) } := by
  simp only [setBlobVector, hdev, hprop, hb]
  simp only [List.foldl_cons, List.foldl_nil, setBlobStep, hv, hdec]
  simp [blobValueOf, blobPropOf, findDevice, SMap.find_insert_self]

/-- The single `oneBLOB` child of claim C5's witness message: base64 of the
five bytes 1..5 with format ".bin". -/
def capturedBlob : OneBlob :=
  { name := "frame", value := "AQIDBAU=", format := ".bin", size := 5 }

/-- The witness `setBLOBVector` message. -/
def captureMessage : SetBlobVector :=
  { device := "cam", name := "ccd1", state := "Ok", blobs := [capturedBlob] }

/-- The stored (empty) BLOB value the witness message re-arms. -/
def captureValue : BlobValue := { name := "frame" }

/-- The BLOB property holding the witness value. -/
def captureProp : BlobProperty := { name := "ccd1", values := [("frame", captureValue)] }

/-- The device holding the witness property. -/
def captureDevice : Device := { name := "cam", blobProperties := [("ccd1", captureProp)] }

/-- The witness catalog. -/
def captureCatalog : Catalog := [("cam", captureDevice)]

/-- Claim C5 witness: the theorem applied to a concrete five-byte capture
(the spec's scenario 4). -/
theorem setBlobVector_writes_and_arms_witness :
    (captureMessage.blobs = [capturedBlob] ∧
     findDevice captureCatalog captureMessage.device = some captureDevice ∧
     SMap.find captureDevice.blobProperties captureMessage.name = some captureProp ∧
     SMap.find captureProp.values capturedBlob.name = some captureValue ∧
     base64Decode (trimSpace capturedBlob.value) = some [1, 2, 3, 4, 5]) ∧
    ((setBlobVector [] captureCatalog captureMessage).1 =
      SMap.insert []
        (captureMessage.device ++ "_" ++ captureMessage.name ++ "_" ++
          capturedBlob.name ++ capturedBlob.format) [1, 2, 3, 4, 5] ∧
     SMap.find (setBlobVector [] captureCatalog captureMessage).1
       (captureMessage.device ++ "_" ++ captureMessage.name ++ "_" ++
         capturedBlob.name ++ capturedBlob.format) = some [1, 2, 3, 4, 5] ∧
     blobValueOf (setBlobVector [] captureCatalog captureMessage).2
       captureMessage.device captureMessage.name capturedBlob.name =
       some { captureValue with
                value := captureMessage.device ++ "_" ++ captureMessage.name ++ "_" ++
                  capturedBlob.name ++ capturedBlob.format,
                size := ((5 : Nat) : Int) }) :=
  ⟨⟨rfl, rfl, rfl, rfl, by decide⟩,
    setBlobVector_writes_and_arms [] captureCatalog captureMessage capturedBlob
      captureDevice captureProp captureValue [1, 2, 3, 4, 5] rfl rfl rfl rfl (by decide)⟩

/-- Claim C6: a set-vector message of any of the five kinds never changes
which value names a property holds (existing names are updated, unknown
names are silently skipped), and consequently, over any inbound message
sequence applied to the empty catalog, every value name observable on a
property appeared among the child names of the most recent definition
message for that device and property. -/
theorem setVector_preserves_value_names :
    (∀ (c : Catalog) (item : SetTextVector) (d p v : String),
      textValueMem (setTextVector c item) d p v = textValueMem c d p v) ∧
    (∀ (c : Catalog) (item : SetSwitchVector) (d p v : String),
      switchValueMem (setSwitchVector c item) d p v = switchValueMem c d p v) ∧
    (∀ (c : Catalog) (item : SetNumberVector) (d p v : String),
      numberValueMem (setNumberVector c item) d p v = numberValueMem c d p v) ∧
    (∀ (c : Catalog) (item : SetLightVector) (d p v : String),
      lightValueMem (setLightVector c item) d p v = lightValueMem c d p v) ∧
    (∀ (fs : Fs) (c : Catalog) (item : SetBlobVector) (d p v : String),
      blobValueMem (setBlobVector fs c item).2 d p v = blobValueMem c d p v) ∧
    (∀ (msgs : List IndiMessage) (d p v : String),
      textValueMem (runMessages msgs ([], [])).2 d p v = true →
      ∃ item, lastTextDef msgs d p = some item ∧ v ∈ item.texts.map OneText.name) ∧
    (∀ (msgs : List IndiMessage) (d p v : String),
      switchValueMem (runMessages msgs ([], [])).2 d p v = true →
      ∃ item, lastSwitchDef msgs d p = some item ∧ v ∈ item.switches.map OneSwitch.name) ∧
    (∀ (msgs : List IndiMessage) (d p v : String),
      numberValueMem (runMessages msgs ([], [])).2 d p v = true →
      ∃ item, lastNumberDef msgs d p = some item ∧ v ∈ item.numbers.map OneNumber.name) ∧
    (∀ (msgs : List IndiMessage) (d p v : String),
      blobValueMem (runMessages msgs ([], [])).2 d p v = true →
      ∃ item, lastBlobDef msgs d p = some item ∧ v ∈ item.blobs.map OneBlob.name) :=
  ⟨textValueMem_setTextVector, switchValueMem_setSwitchVector,
    numberValueMem_setNumberVector, lightValueMem_setLightVector,
    blobValueMem_setBlobVector,
    textValueMem_run, switchValueMem_run, numberValueMem_run, blobValueMem_run⟩

/-- A definition followed by a sparse set carrying one known and one unknown
value name: the witness trace for claim C6. -/
def sparseSetMessages : List IndiMessage :=
  [.defText { device := "w", name := "q", texts := [{ name := "t1" }] },
   .setText { device := "w", name := "q", state := "Ok",
              texts := [{ name := "t1", value := "x" }, { name := "ghost", value := "y" }] }]

/-- Claim C6 witness: on the concrete trace the surviving value name "t1" is
traced back to the most recent definition by the theorem, and the unknown
name "ghost" carried by the set message was not introduced. -/
theorem setVector_preserves_value_names_witness :
    textValueMem (runMessages sparseSetMessages ([], [])).2 "w" "q" "t1" = true ∧
    textValueMem (runMessages sparseSetMessages ([], [])).2 "w" "q" "ghost" = false ∧
    (∃ item, lastTextDef sparseSetMessages "w" "q" = some item ∧
      "t1" ∈ item.texts.map OneText.name) := by
  obtain ⟨a1, a2, a3, a4, a5, r1, r2, r3, r4⟩ := setVector_preserves_value_names
  exact ⟨by decide, by decide, r1 sparseSetMessages "w" "q" "t1" (by decide)⟩


/-- Claim C7: every definition message replaces the stored property of its
(device, name, kind) wholesale — afterwards the property exists and its
value map holds exactly the value names carried by the message, every stored
value being built from a message child (with trimmed content); in
particular after a `defBLOBVector` every BLOB value of the property is empty
(zero size, empty path), whatever was stored before. -/
theorem defVector_replaces_wholesale :
    (∀ (c : Catalog) (item : DefTextVector),
      ∃ prop, textPropOf (defTextVector c item) item.device item.name = some prop ∧
        (∀ v, (SMap.find prop.values v).isSome = true ↔ v ∈ item.texts.map OneText.name) ∧
        (∀ v tv, SMap.find prop.values v = some tv →
          ∃ e ∈ item.texts, e.name = v ∧
            tv = { label := e.label, name := e.name, value := trimSpace e.value })) ∧
    (∀ (c : Catalog) (item : DefSwitchVector),
      ∃ prop, switchPropOf (defSwitchVector c item) item.device item.name = some prop ∧
        (∀ v, (SMap.find prop.values v).isSome = true ↔ v ∈ item.switches.map OneSwitch.name) ∧
        (∀ v sv, SMap.find prop.values v = some sv →
          ∃ e ∈ item.switches, e.name = v ∧
            sv = { label := e.label, name := e.name, value := trimSpace e.value })) ∧
    (∀ (c : Catalog) (item : DefNumberVector),
      ∃ prop, numberPropOf (defNumberVector c item) item.device item.name = some prop ∧
        (∀ v, (SMap.find prop.values v).isSome = true ↔ v ∈ item.numbers.map OneNumber.name) ∧
        (∀ v nv, SMap.find prop.values v = some nv →
          ∃ e ∈ item.numbers, e.name = v ∧
            nv = { label := e.label, name := e.name, value := trimSpace e.value,
                   format := e.format, min := e.min, max := e.max, step := e.step })) ∧
    (∀ (c : Catalog) (item : DefLightVector),
      ∃ prop, lightPropOf (defLightVector c item) item.device item.name = some prop ∧
        (∀ v, (SMap.find prop.values v).isSome = true ↔ v ∈ item.lights.map OneLight.name) ∧
        (∀ v lv, SMap.find prop.values v = some lv →
          ∃ e ∈ item.lights, e.name = v ∧
            lv = { label := e.label, name := e.name, value := trimSpace e.value })) ∧
    (∀ (c : Catalog) (item : DefBlobVector),
      ∃ prop, blobPropOf (defBlobVector c item) item.device item.name = some prop ∧
        (∀ v, (SMap.find prop.values v).isSome = true ↔ v ∈ item.blobs.map OneBlob.name) ∧
        (∀ v bv, SMap.find prop.values v = some bv →
          bv.size = 0 ∧ bv.value = "" ∧
            ∃ e ∈ item.blobs, e.name = v ∧ bv = { label := e.label, name := e.name })) := by
  refine ⟨?_, ?_, ?_, ?_, ?_⟩
  · intro c item
    have hchar := textPropOf_defTextVector c item item.device item.name
    rw [if_pos ⟨rfl, rfl⟩] at hchar
    refine ⟨_, hchar, ?_, ?_⟩
    · intro v
      rw [find_foldl_defTextStep_isSome]
      simp [SMap.find]
    · intro v tv hf
      rcases find_foldl_defTextStep_eq_some item.texts [] v tv hf with h | h
      · exact h
      · simp [SMap.find] at h
  · intro c item
    have hchar := switchPropOf_defSwitchVector c item item.device item.name
    rw [if_pos ⟨rfl, rfl⟩] at hchar
    refine ⟨_, hchar, ?_, ?_⟩
    · intro v
      rw [find_foldl_defSwitchStep_isSome]
      simp [SMap.find]
    · intro v sv hf
      rcases find_foldl_defSwitchStep_eq_some item.switches [] v sv hf with h | h
      · exact h
      · simp [SMap.find] at h
  · intro c item
    have hchar := numberPropOf_defNumberVector c item item.device item.name
    rw [if_pos ⟨rfl, rfl⟩] at hchar
    refine ⟨_, hchar, ?_, ?_⟩
    · intro v
      rw [find_foldl_defNumberStep_isSome]
      simp [SMap.find]
    · intro v nv hf
      rcases find_foldl_defNumberStep_eq_some item.numbers [] v nv hf with h | h
      · exact h
      · simp [SMap.find] at h
  · intro c item
    have hchar := lightPropOf_defLightVector c item item.device item.name
    rw [if_pos ⟨rfl, rfl⟩] at hchar
    refine ⟨_, hchar, ?_, ?_⟩
    · intro v
      rw [find_foldl_defLightStep_isSome]
      simp [SMap.find]
    · intro v lv hf
      rcases find_foldl_defLightStep_eq_some item.lights [] v lv hf with h | h
      · exact h
      · simp [SMap.find] at h
  · intro c item
    have hchar := blobPropOf_defBlobVector c item item.device item.name
    rw [if_pos ⟨rfl, rfl⟩] at hchar
    refine ⟨_, hchar, ?_, ?_⟩
    · intro v
      rw [find_foldl_defBlobStep_isSome]
      simp [SMap.find]
    · intro v bv hf
      rcases find_foldl_defBlobStep_eq_some item.blobs [] v bv hf with h | h
      · obtain ⟨e, he, hn, hv⟩ := h
        exact ⟨hv ▸ rfl, hv ▸ rfl, e, he, hn, hv⟩
      · simp [SMap.find] at h

/-- A probe text definition for claim C7's witness. -/
def replaceProbeText : DefTextVector :=
  { device := "rd", name := "rp", texts := [{ name := "a", label := "L", value := " x " }] }

/-- A probe BLOB definition for claim C7's witness. -/
def replaceProbeBlob : DefBlobVector :=
  { device := "rd", name := "rp", blobs := [{ name := "a" }] }

/-- Claim C7 witness: the text and BLOB conjuncts of the theorem applied to
the probe definitions on the empty catalog. -/
theorem defVector_replaces_wholesale_witness :
    (∃ prop, textPropOf (defTextVector [] replaceProbeText)
        replaceProbeText.device replaceProbeText.name = some prop ∧
      (∀ v, (SMap.find prop.values v).isSome = true ↔
        v ∈ replaceProbeText.texts.map OneText.name) ∧
      (∀ v tv, SMap.find prop.values v = some tv →
        ∃ e ∈ replaceProbeText.texts, e.name = v ∧
          tv = { label := e.label, name := e.name, value := trimSpace e.value })) ∧
    (∃ prop, blobPropOf (defBlobVector [] replaceProbeBlob)
        replaceProbeBlob.device replaceProbeBlob.name = some prop ∧
      (∀ v, (SMap.find prop.values v).isSome = true ↔
        v ∈ replaceProbeBlob.blobs.map OneBlob.name) ∧
      (∀ v bv, SMap.find prop.values v = some bv →
        bv.size = 0 ∧ bv.value = "" ∧
          ∃ e ∈ replaceProbeBlob.blobs, e.name = v ∧
            bv = { label := e.label, name := e.name })) :=
  ⟨defVector_replaces_wholesale.1 [] replaceProbeText,
   defVector_replaces_wholesale.2.2.2.2 [] replaceProbeBlob⟩

end IndiClient
